import Mathlib

/-!
Verification of the genesis python-bindings generator (`tools/py_bindings`).

This file shallowly embeds the Python 2 sources
  `py_binder/cpp_entities.py`, `py_binder/doxygen_reader.py`,
  `py_binder/boost_writer.py`, `py_binder/pybind11_writer.py`, `py_binder.py`
into Lean.  Conventions of the embedding:

* Python strings are `String`; all string primitives used by the code
  (`strip`, `startswith`, slicing, `split`, `replace`, `lower`, `%`-free
  concatenation, `sorted`) are re-implemented below by structural recursion
  on `List Char`, so that every definition evaluates inside the kernel.
* Python dictionaries are association lists (`List (String × α)`): insertion
  order is the iteration order.  CPython 2 without hash randomization iterates
  a dict in an order that is a deterministic function of the sequence of
  insertions, which is all the theorems below rely on.
* Python sets are insertion-ordered duplicate-free lists; `set.pop`, whose
  result CPython leaves unspecified (hash-table order), is modelled by an
  oracle parameter `pop : List String → String` that the relevant theorems
  constrain only by membership.
* Python 2 compares two instances of the same (old-style) class by object
  address; `sorted` over a list of `CppFunction` objects therefore orders by
  a total relation that is NOT a function of the objects' field values.  It
  is modelled by an oracle parameter `cmp : CppFunction → CppFunction → Bool`.
* `print` output is collected in `List String` result components
  (diagnostics); uncaught Python exceptions (`KeyError`, `AttributeError`,
  `IndexError`, `IOError`) are `Except String` errors.
* Parent pointers (`self.parent`) only ever feed `cpp_full_name`; they are
  modelled by storing the parent's fully qualified name (`parentFullName`).
-/

/-! ## String primitives (Python semantics, kernel-computable) -/

/-- Lexicographic comparison of char lists by code point, Python `<=` on `str`. -/
def charsLe : List Char → List Char → Bool
  | [], _ => true
  | _ :: _, [] => false
  | a :: as, b :: bs => if a = b then charsLe as bs else decide (a < b)

/-- Python `s <= t` for strings. -/
def strLe (a b : String) : Bool := charsLe a.data b.data

/-- Python whitespace for `str.strip()` (ASCII range). -/
def isPyWs (c : Char) : Bool :=
  c = ' ' ∨ c = '\t' ∨ c = '\n' ∨ c = '\x0d' ∨ c = '\x0b' ∨ c = '\x0c'

def dropEndWhile (p : Char → Bool) (l : List Char) : List Char :=
  (l.reverse.dropWhile p).reverse

/-- Python `str.strip()` (no argument): trim whitespace on both ends. -/
def pyStrip (s : String) : String :=
  ⟨dropEndWhile isPyWs (s.data.dropWhile isPyWs)⟩

/-- Python `str.strip(c)` for a single-character argument. -/
def pyStripChar (c : Char) (s : String) : String :=
  ⟨dropEndWhile (· = c) (s.data.dropWhile (· = c))⟩

/-- Python `str.lower()` (ASCII letters; the identifiers the tool handles are ASCII). -/
def pyLower (s : String) : String :=
  ⟨s.data.map (fun c => if 'A' ≤ c ∧ c ≤ 'Z' then Char.ofNat (c.toNat + 32) else c)⟩

/-- Python `s.startswith(t)`. -/
def strStartsWith (s t : String) : Bool := t.data.isPrefixOf s.data

/-- Python `s.endswith(t)`. -/
def strEndsWith (s t : String) : Bool := t.data.reverse.isPrefixOf s.data.reverse

/-- Python slicing `s[n:]`. -/
def strDrop (s : String) (n : Nat) : String := ⟨s.data.drop n⟩

/-- Python string repetition `s * n`. -/
def repeatStr (s : String) (n : Nat) : String :=
  ⟨(List.replicate n s.data).flatten⟩

/-- Python `sep.join(parts)`. -/
def joinSep (sep : String) : List String → String
  | [] => ""
  | [x] => x
  | x :: y :: rest => x ++ sep ++ joinSep sep (y :: rest)

/-- One step of Python `str.replace`: fuel-driven so it is structural recursion. -/
def replaceSubFuel (pat rep : List Char) : Nat → List Char → List Char
  | 0, l => l
  | _ + 1, [] => []
  | fuel + 1, c :: cs =>
    if pat.isPrefixOf (c :: cs) then
      rep ++ replaceSubFuel pat rep fuel ((c :: cs).drop pat.length)
    else
      c :: replaceSubFuel pat rep fuel cs

/-- Python `s.replace(pat, rep)` (left to right, non-overlapping); `pat` is
never empty at any call site of the embedded code. -/
def pyReplace (s pat rep : String) : String :=
  ⟨replaceSubFuel pat.data rep.data s.data.length s.data⟩

/-- Splitting helper for Python `s.split(sep)` with non-empty `sep`. -/
def splitOnFuel (sep : List Char) : Nat → List Char → List Char → List (List Char)
  | 0, acc, l => [acc ++ l]
  | _ + 1, acc, [] => [acc]
  | fuel + 1, acc, c :: cs =>
    if sep.isPrefixOf (c :: cs) then
      acc :: splitOnFuel sep fuel [] ((c :: cs).drop sep.length)
    else
      splitOnFuel sep fuel (acc ++ [c]) cs

/-- Python `s.split(sep)` for non-empty `sep`. -/
def pySplit (s sep : String) : List String :=
  (splitOnFuel sep.data s.data.length [] s.data).map (⟨·⟩)

/-- First position (from the left) where `sep` occurs, if any. -/
def containsSub (s sep : String) : Bool := (pySplit s sep).length > 1

/-- Stable insertion into a sorted list: keeps an earlier-in-input element in
front of later equal ones, matching Python's stable `sorted`. -/
def insertLe {α : Type} (le : α → α → Bool) (x : α) : List α → List α
  | [] => [x]
  | y :: ys => if le x y then x :: y :: ys else y :: insertLe le x ys

/-- Stable sort (insertion sort), the model of Python `sorted`. -/
def stableSort {α : Type} (le : α → α → Bool) (l : List α) : List α :=
  l.foldr (insertLe le) []

/-- Keep the first occurrence of each element (used for `sorted(set(...))`,
where only the member set matters because the result is sorted anyway). -/
def dedupKeepFirstAux (seen : List String) : List String → List String
  | [] => []
  | x :: xs => if x ∈ seen then dedupKeepFirstAux seen xs
               else x :: dedupKeepFirstAux (x :: seen) xs

def dedupKeepFirst (l : List String) : List String := dedupKeepFirstAux [] l

/-! ## Python dict and set models -/

/-- Python dict as an insertion-ordered association list. -/
abbrev PyDict (α : Type) : Type := List (String × α)

def PyDict.lookup {α : Type} (d : PyDict α) (k : String) : Option α :=
  match d with
  | [] => none
  | (k2, v) :: rest => if k2 = k then some v else PyDict.lookup rest k

def PyDict.has_key {α : Type} (d : PyDict α) (k : String) : Bool :=
  ( PyDict.lookup d k).isSome

/-- `d[k] = v`: replace in place if the key exists, else append. -/
def PyDict.set {α : Type} (d : PyDict α) (k : String) (v : α) : PyDict α :=
  match d with
  | [] => [(k, v)]
  | (k2, v2) :: rest =>
    if k2 = k then (k, v) :: rest else (k2, v2) :: PyDict.set rest k v

/-- `sorted(d)` iteration: the association pairs in sorted key order
(keys are unique, so looking the sorted keys up again is the same thing). -/
def PyDict.sortedPairs {α : Type} (d : PyDict α) : List (String × α) :=
  stableSort (fun a b => strLe a.1 b.1) d

/-- Python set as an insertion-ordered duplicate-free list; `set.add`. -/
def setAdd (l : List String) (x : String) : List String :=
  if x ∈ l then l else l ++ [x]

/-! ## Entity model (`py_binder/cpp_entities.py`) -/

/-- `class CppParameter` — `value` is coerced from `None` to `""` both in
`cpp_signature` and by the reader, so it is a plain `String` here. -/
structure CppParameter where
  type : String
  name : String
  value : String
deriving DecidableEq

def CppParameter.cpp_signature (p : CppParameter) : String :=
  p.type ++ " " ++ p.name ++ (if p.value ≠ "" then "=" ++ p.value else "")

/-- `class CppFunction`.  `parentFullName` models the `parent` pointer: the
only use the code makes of `parent` is `self.parent.cpp_full_name()`. -/
structure CppFunction where
  parentFullName : String
  name : String
  template_params : Option (List String)
  prot : String
  static : Bool
  const : Bool
  virtual : Bool
  type : String
  params : List CppParameter
  briefdescription : String
  detaileddescription : String
  location : String
deriving DecidableEq

def CppFunction.cpp_full_name (f : CppFunction) : String :=
  f.parentFullName ++ "::" ++ f.name

def CppFunction.cpp_signature (f : CppFunction) (full : Bool) : String :=
  (if f.static then "static " else "")
  ++ (if f.type ≠ "" then f.type ++ " " else "")
  ++ (if full then f.parentFullName ++ "::" else "") ++ f.name
  ++ " (" ++ joinSep ", " (f.params.map CppParameter.cpp_signature) ++ ")"
  ++ (if f.const then " const" else "")

/-- `class CppIterator` (the `parent` pointer is never read; `end_` stands for
the Python attribute `end`, a Lean keyword). -/
structure CppIterator where
  name : String
  begin : String
  end_ : String
deriving DecidableEq

/-- `class CppClass`; `parentFullName` models the `parent` pointer as for
`CppFunction`. -/
structure CppClass where
  parentFullName : String
  name : String
  template_params : Option (List String)
  ctors : List CppFunction
  dtors : List CppFunction
  methods : List CppFunction
  operators : List CppFunction
  iterators : List CppIterator
  briefdescription : String
  detaileddescription : String
  location : String
deriving DecidableEq

/-- `CppClass.__init__(name)`. -/
def CppClass.init (name : String) : CppClass :=
  ⟨"", name, none, [], [], [], [], [], "", "", ""⟩

def CppClass.cpp_full_name (c : CppClass) : String :=
  c.parentFullName ++ "::" ++ c.name

/-- `CppClass.add_function`: `None` is a silent no-op; otherwise the function
is bucketed purely by its name. -/
def CppClass.add_function (c : CppClass) (func : Option CppFunction) : CppClass :=
  match func with
  | none => c
  | some f =>
    if f.name = c.name then { c with ctors := c.ctors ++ [f] }
    else if f.name = "~" ++ c.name then { c with dtors := c.dtors ++ [f] }
    else if strStartsWith f.name "operator" then { c with operators := c.operators ++ [f] }
    else { c with methods := c.methods ++ [f] }

def CppClass.add_named_iterator (c : CppClass) (py_name begin_name end_name : String) : CppClass :=
  { c with iterators := c.iterators ++ [⟨py_name, begin_name, end_name⟩] }

/-- `CppClass.add_iterator()` with its default arguments. -/
def CppClass.add_iterator (c : CppClass) : CppClass :=
  CppClass.add_named_iterator c "__iter__" "begin" "end"

/-- `end_name = re.sub('^begin', 'end', re.sub('^Begin', 'End', mn))`. -/
def iteratorEndName (mn : String) : String :=
  let s1 := if strStartsWith mn "Begin" then "End" ++ strDrop mn 5 else mn
  if strStartsWith s1 "begin" then "end" ++ strDrop s1 5 else s1

/-- One turn of the named-iterator loop in `CppClass.extract_iterators`;
the state is `(extracted_iters, class)` and `method_names` is the method-name
list captured before the default `begin`/`end` pair was removed. -/
def extractNamedStep (method_names : List String) (st : List String × CppClass)
    (mn : String) : List String × CppClass :=
  if ¬ strStartsWith ( pyLower mn) "begin" ∨ mn = "begin" then st
  else
    let it_name := pyStripChar '_' (strDrop mn 5)
    let begin_name := mn
    let end_name := iteratorEndName mn
    if end_name ∉ method_names then st
    else if it_name ∈ st.1 then st
    else
      (st.1 ++ [it_name],
        { CppClass.add_named_iterator st.2 it_name begin_name end_name with
          methods := st.2.methods.filter (fun f => ¬ (f.name = begin_name ∨ f.name = end_name)) })

/-- `CppClass.extract_iterators(all_named)`. -/
def CppClass.extract_iterators (c : CppClass) (all_named : Bool) : CppClass :=
  let method_names := c.methods.map (·.name)
  let c1 :=
    if "begin" ∈ method_names ∧ "end" ∈ method_names then
      { CppClass.add_iterator c with
        methods := c.methods.filter (fun f => ¬ (f.name = "begin" ∨ f.name = "end")) }
    else c
  if all_named then
    (method_names.foldl (extractNamedStep method_names) ([], c1)).2
  else c1

/-- The skip-with-warning strip of one function bucket inside
`CppClass.shorten_location_prefix`.  Python prints the instance repr of the
function; the message text abstracts it to the function name. -/
def shortenFuncList (pre : String) : List CppFunction → List CppFunction × List String
  | [] => ([], [])
  | f :: fs =>
    let rest := shortenFuncList pre fs
    if ¬ strStartsWith f.location pre then
      (f :: rest.1,
        ("Location of function " ++ f.name ++ " does not start with prefix " ++ pre) :: rest.2)
    else
      ({ f with location := strDrop f.location pre.length } :: rest.1, rest.2)

/-- `CppClass.shorten_location_prefix(prefix)`: strips the prefix from the
locations of all four function buckets; result plus printed warnings. -/
def CppClass.shorten_location_prefix (c : CppClass) (pre : String) :
    CppClass × List String :=
  if pre = "" then (c, [])
  else
    let rc := shortenFuncList pre c.ctors
    let rd := shortenFuncList pre c.dtors
    let rm := shortenFuncList pre c.methods
    let ro := shortenFuncList pre c.operators
    ({ c with ctors := rc.1, dtors := rd.1, methods := rm.1, operators := ro.1 },
      rc.2 ++ rd.2 ++ rm.2 ++ ro.2)

/-- `class CppNamespace`: a tree node owning child namespaces, classes and
free functions, each in a dict. -/
inductive CppNamespace where
  | mk (name : String)
       (namespaces : List (String × CppNamespace))
       (classes : List (String × CppClass))
       (functions : List (String × CppFunction))
       (briefdescription : String)
       (detaileddescription : String)

def CppNamespace.name : CppNamespace → String
  | .mk n _ _ _ _ _ => n

def CppNamespace.namespaces : CppNamespace → List (String × CppNamespace)
  | .mk _ nss _ _ _ _ => nss

def CppNamespace.classes : CppNamespace → List (String × CppClass)
  | .mk _ _ cls _ _ _ => cls

def CppNamespace.functions : CppNamespace → List (String × CppFunction)
  | .mk _ _ _ fns _ _ => fns

/-- `CppNamespace.__init__(name)`. -/
def CppNamespace.init (name : String) : CppNamespace :=
  .mk name [] [] [] "" ""

/-- `CppNamespace.create_namespace(ns)`: `None` is a no-op, an existing name
is a no-op, otherwise a fresh child namespace is registered. -/
def CppNamespace.create_namespace (ns : CppNamespace) (child : Option String) :
    CppNamespace :=
  match child with
  | none => ns
  | some nm =>
    match ns with
    | .mk n nss cls fns b d =>
      if PyDict.has_key nss nm then .mk n nss cls fns b d
      else .mk n (nss ++ [(nm, CppNamespace.init nm)]) cls fns b d

/-- `CppNamespace.add_class(clss)`: `None` is a no-op; a duplicate fully
qualified name is a logged conflict that keeps the first registration. -/
def CppNamespace.add_class (ns : CppNamespace) (clss : Option CppClass) :
    CppNamespace × List String :=
  match clss with
  | none => (ns, [])
  | some c =>
    match ns with
    | .mk n nss cls fns b d =>
      if PyDict.has_key cls (CppClass.cpp_full_name c) then
        (.mk n nss cls fns b d,
          ["Namespace " ++ n ++ " already contains a class named "
            ++ CppClass.cpp_full_name c])
      else
        (.mk n nss (cls ++ [(CppClass.cpp_full_name c, c)]) fns b d, [])

/-- `CppNamespace.add_function(func)`: `None` is a no-op; a duplicate
signature is a logged conflict that keeps the first registration. -/
def CppNamespace.add_function (ns : CppNamespace) (func : Option CppFunction) :
    CppNamespace × List String :=
  match func with
  | none => (ns, [])
  | some f =>
    match ns with
    | .mk n nss cls fns b d =>
      if PyDict.has_key fns (CppFunction.cpp_signature f true) then
        (.mk n nss cls fns b d,
          ["Namespace " ++ n ++ " already contains a function named "
            ++ CppFunction.cpp_signature f true])
      else
        (.mk n nss cls (fns ++ [(CppFunction.cpp_signature f true, f)]) b d, [])

mutual

/-- `CppNamespace.get_all_classes`: own classes in sorted key order, then the
child namespaces' classes in sorted key order.  The structural mutual
recursion first maps the children and then sorts the (key, result) pairs,
which equals iterating `sorted(self.namespaces)` because the sort is stable
and only looks at the keys. -/
def CppNamespace.get_all_classes : CppNamespace → List CppClass
  | .mk _ nss cls _ _ _ =>
    ( PyDict.sortedPairs cls).map (·.2)
    ++ (( PyDict.sortedPairs (nsListClasses nss)).map (·.2)).flatten

def nsListClasses : List (String × CppNamespace) → List (String × List CppClass)
  | [] => []
  | (k, c) :: rest => (k, CppNamespace.get_all_classes c) :: nsListClasses rest

end

mutual

/-- `CppNamespace.get_all_functions` (same traversal scheme). -/
def CppNamespace.get_all_functions : CppNamespace → List CppFunction
  | .mk _ nss _ fns _ _ =>
    ( PyDict.sortedPairs fns).map (·.2)
    ++ (( PyDict.sortedPairs (nsListFunctions nss)).map (·.2)).flatten

def nsListFunctions : List (String × CppNamespace) → List (String × List CppFunction)
  | [] => []
  | (k, c) :: rest => (k, CppNamespace.get_all_functions c) :: nsListFunctions rest

end

mutual

/-- `CppNamespace.get_file_locations`: class locations in dict order, classes
without location are only warned about; returns (locations, warnings). -/
def CppNamespace.get_file_locations : CppNamespace → List String × List String
  | .mk _ nss cls _ _ _ =>
    let own : List String × List String := nsClassLocations cls
    let rec_ : List String × List String := nsListLocations nss
    (own.1 ++ rec_.1, own.2 ++ rec_.2)

def nsClassLocations : List (String × CppClass) → List String × List String
  | [] => ([], [])
  | (_, c) :: rest =>
    let r := nsClassLocations rest
    if c.location = "" then
      (r.1, ("Warn: Class without location: " ++ c.name) :: r.2)
    else (c.location :: r.1, r.2)

def nsListLocations : List (String × CppNamespace) → List String × List String
  | [] => ([], [])
  | (_, c) :: rest =>
    let own := CppNamespace.get_file_locations c
    let r := nsListLocations rest
    (own.1 ++ r.1, own.2 ++ r.2)

end

mutual

/-- `os.path.commonprefix`: character-wise longest common prefix. -/
def lcpChars : List Char → List Char → List Char
  | a :: as, b :: bs => if a = b then a :: lcpChars as bs else []
  | _, _ => []

def commonPrefixAll : List String → String
  | [] => ""
  | x :: xs => ⟨xs.foldl (fun acc s => lcpChars acc s.data) x.data⟩

/-- `CppNamespace.get_location_prefix`. -/
def CppNamespace.get_location_prefix (ns : CppNamespace) : String :=
  commonPrefixAll (CppNamespace.get_file_locations ns).1

/-- `CppNamespace.shorten_location_prefix(prefix)`: resolve an empty prefix to
the tree-wide common prefix, then strip class locations (recursing into each
class's functions only when the class location matched), strip free-function
locations, and recurse into child namespaces with the resolved prefix.
Returns the rewritten namespace and the printed warnings. -/
def CppNamespace.shorten_location_prefix (ns : CppNamespace) (pre0 : String) :
    CppNamespace × List String :=
  match ns with
  | .mk n nss cls fns b d =>
    let pre := if pre0 = "" then CppNamespace.get_location_prefix (.mk n nss cls fns b d)
               else pre0
    let rcls := nsShortenClasses pre cls
    let rfns := nsShortenFunctions pre fns
    let rnss := nsShortenChildren pre nss
    (.mk n rnss.1 rcls.1 rfns.1 b d, rcls.2 ++ rfns.2 ++ rnss.2)

def nsShortenClasses (pre : String) :
    List (String × CppClass) → List (String × CppClass) × List String
  | [] => ([], [])
  | (k, c) :: rest =>
    let r := nsShortenClasses pre rest
    if ¬ strStartsWith c.location pre then
      ((k, c) :: r.1,
        ("Location of class " ++ k ++ " does not start with prefix " ++ pre) :: r.2)
    else
      let c1 := { c with location := strDrop c.location pre.length }
      let rc := CppClass.shorten_location_prefix c1 pre
      ((k, rc.1) :: r.1, rc.2 ++ r.2)

def nsShortenFunctions (pre : String) :
    List (String × CppFunction) → List (String × CppFunction) × List String
  | [] => ([], [])
  | (k, f) :: rest =>
    let r := nsShortenFunctions pre rest
    if ¬ strStartsWith f.location pre then
      ((k, f) :: r.1,
        ("Location of function " ++ k ++ " does not start with prefix " ++ pre) :: r.2)
    else
      ((k, { f with location := strDrop f.location pre.length }) :: r.1, r.2)

def nsShortenChildren (pre : String) :
    List (String × CppNamespace) → List (String × CppNamespace) × List String
  | [] => ([], [])
  | (k, c) :: rest =>
    let own := CppNamespace.shorten_location_prefix c pre
    let r := nsShortenChildren pre rest
    ((k, own.1) :: r.1, own.2 ++ r.2)

end

/-! ## Documentation-XML reader (`py_binder/doxygen_reader.py`)

XML documents are modelled as trees; `text` is the element's own text (ET's
`.text`, `""` for absent), attribute access `elem.attrib[k]` raises
`KeyError` when missing, and calling a method on the result of a failed
`find` raises `AttributeError`, both modelled as `Except.error`. -/

inductive XmlNode where
  | mk (tag : String) (attributes : List (String × String)) (text : String)
       (children : List XmlNode)

def XmlNode.tag : XmlNode → String
  | .mk t _ _ _ => t

def XmlNode.attributes : XmlNode → List (String × String)
  | .mk _ a _ _ => a

def XmlNode.text : XmlNode → String
  | .mk _ _ t _ => t

def XmlNode.children : XmlNode → List XmlNode
  | .mk _ _ _ c => c

/-- `elem.find(tag)`: first direct child with the tag, if any. -/
def XmlNode.find (n : XmlNode) (t : String) : Option XmlNode :=
  n.children.find? (fun c => c.tag = t)

/-- `elem.findall(tag)`: all direct children with the tag. -/
def XmlNode.findall (n : XmlNode) (t : String) : List XmlNode :=
  n.children.filter (fun c => c.tag = t)

/-- `elem.attrib[k]` (raises `KeyError` when absent). -/
def XmlNode.getAttr (n : XmlNode) (k : String) : Except String String :=
  match PyDict.lookup n.attributes k with
  | some v => .ok v
  | none => .error ("KeyError: \x27" ++ k ++ "\x27")

mutual

/-- `''.join(elem.itertext())`: all text in the subtree, document order. -/
def XmlNode.itertext : XmlNode → String
  | .mk _ _ t cs => t ++ xmlListItertext cs

def xmlListItertext : List XmlNode → String
  | [] => ""
  | c :: cs => XmlNode.itertext c ++ xmlListItertext cs

end

def errNoneAttr (a : String) : String :=
  "AttributeError: \x27NoneType\x27 object has no attribute \x27" ++ a ++ "\x27"

/-- `DoxygenReader.parse_template_parameters`: returns the printed
diagnostics and the optional template parameter list. -/
def DoxygenReader.parse_template_parameters (compound : XmlNode) :
    Except String (List String × Option (List String)) :=
  match XmlNode.find compound "templateparamlist" with
  | none => .ok ([], none)
  | some tpl => do
    let st ← tpl.children.foldlM (fun (st : List String × List String) param => do
      let d := if param.tag ≠ "param" then
                 ["Warn: Unknown template parameter tag: " ++ param.tag]
               else []
      match XmlNode.find param "type" with
      | none => .error (errNoneAttr "itertext")
      | some tynode =>
        let base := pyStrip (XmlNode.itertext tynode)
        let pstr := match XmlNode.find param "declname" with
          | some dn => base ++ " " ++ pyStrip (XmlNode.itertext dn)
          | none => base
        .ok (st.1 ++ d, st.2 ++ [pstr])) (([], []) : List String × List String)
    .ok (st.1, some st.2)

/-- `DoxygenReader.parse_function`: a member with the wrong tag or the wrong
`kind` attribute is reported and yields `none` (Python `None`); structurally
missing pieces (`find` returning `None`, missing attributes) raise. -/
def DoxygenReader.parse_function (member : XmlNode) :
    Except String (List String × Option CppFunction) := do
  if member.tag ≠ "memberdef" then
    .ok (["Invalid xml tag: " ++ member.tag], none)
  else do
    let kind ← XmlNode.getAttr member "kind"
    if kind ≠ "function" then
      .ok (["Invalid member kind: " ++ kind], none)
    else do
      let name ← match XmlNode.find member "name" with
        | none => .error (errNoneAttr "text")
        | some n => pure n.text
      let ty ← match XmlNode.find member "type" with
        | none => .error (errNoneAttr "itertext")
        | some n => pure (XmlNode.itertext n)
      let (tdiags, tparams) ← DoxygenReader.parse_template_parameters member
      let prot ← XmlNode.getAttr member "prot"
      let static ← XmlNode.getAttr member "static"
      let const ← XmlNode.getAttr member "const"
      let virt ← XmlNode.getAttr member "virt"
      let params ← (XmlNode.findall member "param").foldlM
        (fun (ps : List CppParameter) p => do
          let ptype ← match XmlNode.find p "type" with
            | none => .error (errNoneAttr "itertext")
            | some n => pure (pyStrip (XmlNode.itertext n))
          let pname := match XmlNode.find p "declname" with
            | some n => n.text
            | none => ""
          let pvalue := match XmlNode.find p "defval" with
            | some n => n.text
            | none => ""
          pure (ps ++ [⟨ptype, pname, pvalue⟩])) ([] : List CppParameter)
      let brief ← match XmlNode.find member "briefdescription" with
        | none => .error (errNoneAttr "itertext")
        | some n => pure (pyStrip (XmlNode.itertext n))
      let detailed ← match XmlNode.find member "detaileddescription" with
        | none => .error (errNoneAttr "itertext")
        | some n => pure (pyStrip (XmlNode.itertext n))
      let location ← match XmlNode.find member "location" with
        | none => .error (errNoneAttr "attrib")
        | some n => XmlNode.getAttr n "file"
      .ok (tdiags,
        some ⟨"", name, tparams, prot, static = "yes", const = "yes",
              virt = "virtual", ty, params, brief, detailed, location⟩)

/-- State while parsing the member sections of one class compound. -/
structure ClassParseState where
  diags : List String
  locations : List String
  clss : CppClass

/-- The member loop of `DoxygenReader.parse_class_file` for one section.
A member whose `kind` is not `function` is skipped with the "Weird." message;
a member for which `parse_function` returned `None` crashes the run, because
the caller immediately executes `func.parent = clss` on it. -/
def parseClassMembers (skind : String) :
    ClassParseState → List XmlNode → Except String ClassParseState
  | st, [] => .ok st
  | st, member :: rest => do
    let mkind ← XmlNode.getAttr member "kind"
    if mkind ≠ "function" then
      parseClassMembers skind
        { st with diags := st.diags ++
            ["Weird. Member in section \x27" ++ skind ++ "\x27 that is not a function."] }
        rest
    else do
      let (fdiags, funcOpt) ← DoxygenReader.parse_function member
      match funcOpt with
      | none => .error (errNoneAttr "parent")
      | some f =>
        let f := { f with parentFullName := CppClass.cpp_full_name st.clss }
        parseClassMembers skind
          { diags := st.diags ++ fdiags,
            locations := setAdd st.locations f.location,
            clss := CppClass.add_function st.clss (some f) } rest

/-- The section loop of `DoxygenReader.parse_class_file`: only `sectiondef`
children whose kind is a public (static) function section are consumed. -/
def parseClassSections :
    ClassParseState → List XmlNode → Except String ClassParseState
  | st, [] => .ok st
  | st, sec :: rest => do
    if sec.tag ≠ "sectiondef" then parseClassSections st rest
    else do
      let skind ← XmlNode.getAttr sec "kind"
      if skind ≠ "public-func" ∧ skind ≠ "public-static-func" then
        parseClassSections st rest
      else do
        let st1 ← parseClassMembers skind st sec.children
        parseClassSections st1 rest

/-- One `compounddef` of a class detail file (the body of the compound loop
of `DoxygenReader.parse_class_file`). -/
def parseClassCompound (pop : List String → String)
    (st : List String × List CppClass) (compound : XmlNode) :
    Except String (List String × List CppClass) := do
  let kind ← XmlNode.getAttr compound "kind"
  if kind ≠ "class" ∧ kind ≠ "struct" then .ok st
  else do
    let full ← match XmlNode.find compound "compoundname" with
      | none => .error (errNoneAttr "text")
      | some n => pure n.text
    let parts := pySplit full "::"
    let clss_name ← if parts.length < 2 then
        .error "IndexError: list index out of range"
      else match parts.getLast? with
        | some last => pure last
        | none => .error "IndexError: list index out of range"
    let (tdiags, tparams) ← DoxygenReader.parse_template_parameters compound
    let brief ← match XmlNode.find compound "briefdescription" with
      | none => .error (errNoneAttr "itertext")
      | some n => pure (pyStrip (XmlNode.itertext n))
    let detailed ← match XmlNode.find compound "detaileddescription" with
      | none => .error (errNoneAttr "itertext")
      | some n => pure (pyStrip (XmlNode.itertext n))
    let clss0 := { CppClass.init clss_name with
      template_params := tparams, briefdescription := brief,
      detaileddescription := detailed }
    let st1 ← parseClassSections ⟨st.1 ++ tdiags, [], clss0⟩ compound.children
    let diags2 := st1.diags ++
      (if st1.locations.length > 1 then
        ["Weird. Multiple locations for class " ++ clss_name] else [])
    let loc ← match st1.locations with
      | [] => (match XmlNode.find compound "location" with
               | none => .error (errNoneAttr "attrib")
               | some n => XmlNode.getAttr n "file")
      | ls => pure (pop ls)
    .ok (diags2, st.2 ++ [{ st1.clss with location := loc }])

/-- `DoxygenReader.parse_class_file`, applied to the root element of an
already-parsed detail document.  `pop` is the `set.pop` oracle (CPython
leaves the choice of element unspecified). -/
def DoxygenReader.parse_class_file (root : XmlNode)
    (pop : List String → String) : Except String (List String × List CppClass) := do
  let st ← root.children.foldlM (parseClassCompound pop) (([], []) : List String × List CppClass)
  .ok (st.1, stableSort (fun a b => strLe a.name b.name) st.2)

/-- The member loop of `DoxygenReader.parse_namespace_file`: results of
`parse_function` (including `None`) are appended as-is. -/
def parseNamespaceMembers (skind : String) :
    List String × List (Option CppFunction) → List XmlNode →
    Except String (List String × List (Option CppFunction))
  | st, [] => .ok st
  | st, member :: rest => do
    let mkind ← XmlNode.getAttr member "kind"
    if mkind ≠ "function" then
      parseNamespaceMembers skind
        (st.1 ++ ["Weird. Member in section \x27" ++ skind ++ "\x27 that is not a function."],
          st.2) rest
    else do
      let (fdiags, funcOpt) ← DoxygenReader.parse_function member
      parseNamespaceMembers skind (st.1 ++ fdiags, st.2 ++ [funcOpt]) rest

def parseNamespaceSections :
    List String × List (Option CppFunction) → List XmlNode →
    Except String (List String × List (Option CppFunction))
  | st, [] => .ok st
  | st, sec :: rest => do
    if sec.tag ≠ "sectiondef" then parseNamespaceSections st rest
    else do
      let skind ← XmlNode.getAttr sec "kind"
      if skind ≠ "func" then parseNamespaceSections st rest
      else do
        let st1 ← parseNamespaceMembers skind st sec.children
        parseNamespaceSections st1 rest

/-- `DoxygenReader.parse_namespace_file`: collects free functions of
namespace compounds, then sorts by name.  A member for which
`parse_function` returned `None` crashes at the sort, whose key function
reads `func.name` off `None`. -/
def DoxygenReader.parse_namespace_file (root : XmlNode) :
    Except String (List String × List CppFunction) := do
  let st ← root.children.foldlM (fun st compound => do
      let kind ← XmlNode.getAttr compound "kind"
      if kind ≠ "namespace" then .ok st
      else parseNamespaceSections st compound.children)
    (([], []) : List String × List (Option CppFunction))
  if st.2.any (·.isNone) then .error (errNoneAttr "name")
  else
    .ok (st.1, stableSort (fun a b => strLe a.name b.name) (st.2.filterMap id))

/-- The fully qualified name of the namespace reached through `path` starting
from the root namespace, matching the chain of `cpp_full_name` parent calls. -/
def nsFullNameOfPath (path : List String) : String :=
  path.foldl (fun acc p => acc ++ "::" ++ p) ""

/-- Re-point a class (and, through the live `parent` pointers of Python, its
member functions) at the namespace with full name `nsFull`; models
`clss.parent = ns_local` in `parse_xml_dir`. -/
def CppClass.setParent (c : CppClass) (nsFull : String) : CppClass :=
  let mfull := nsFull ++ "::" ++ c.name
  let fix := fun (f : CppFunction) => { f with parentFullName := mfull }
  { c with parentFullName := nsFull
           ctors := c.ctors.map fix
           dtors := c.dtors.map fix
           methods := c.methods.map fix
           operators := c.operators.map fix }

/-- Walk down `path` from `ns`, creating missing namespaces on the way
(`create_namespace` is idempotent), and apply `act` to the final namespace;
models the `ns_local` walk plus the subsequent `add_class`/`add_function`. -/
def CppNamespace.atPathApply (act : CppNamespace → CppNamespace × List String) :
    CppNamespace → List String → CppNamespace × List String
  | ns, [] => act ns
  | ns, p :: rest =>
    let ns1 := CppNamespace.create_namespace ns (some p)
    match ns1 with
    | .mk n nss cls fns b d =>
      match PyDict.lookup nss p with
      | none => (.mk n nss cls fns b d, [])
      | some child =>
        let r := CppNamespace.atPathApply act child rest
        (.mk n ( PyDict.set nss p r.1) cls fns b d, r.2)

/-- `DoxygenReader.parse_xml_dir`: the directory is a map from file name to
its parsed XML root.  A missing `index.xml` is fatal (`IOError` from
`ElementTree.parse`), and so is a missing detail document. -/
def DoxygenReader.parse_xml_dir (files : List (String × XmlNode))
    (pop : List String → String) : Except String (List String × CppNamespace) := do
  let index ← match PyDict.lookup files "index.xml" with
    | some x => pure x
    | none => .error "IOError: [Errno 2] No such file or directory: index.xml"
  index.children.foldlM (fun (st : List String × CppNamespace) compound => do
    let kind ← XmlNode.getAttr compound "kind"
    if kind ≠ "class" ∧ kind ≠ "struct" ∧ kind ≠ "namespace" then .ok st
    else do
      let full ← match XmlNode.find compound "name" with
        | none => .error (errNoneAttr "text")
        | some n => pure n.text
      let parts := pySplit full "::"
      let elem_ns_list := if kind ≠ "namespace" then parts.dropLast else parts
      let refid ← XmlNode.getAttr compound "refid"
      let detail ← match PyDict.lookup files (refid ++ ".xml") with
        | some x => pure x
        | none => .error ("IOError: [Errno 2] No such file or directory: "
                          ++ refid ++ ".xml")
      if kind = "class" ∨ kind = "struct" then do
        let (diags, classes) ← DoxygenReader.parse_class_file detail pop
        let nsFull := nsFullNameOfPath elem_ns_list
        let r := classes.foldl (fun (acc : CppNamespace × List String) clss =>
          let r1 := CppNamespace.atPathApply
            (fun nsl => CppNamespace.add_class nsl (some (CppClass.setParent clss nsFull)))
            acc.1 elem_ns_list
          (r1.1, acc.2 ++ r1.2)) (st.2, ([] : List String))
        .ok (st.1 ++ diags ++ r.2, r.1)
      else do
        let (diags, funcs) ← DoxygenReader.parse_namespace_file detail
        let nsFull := nsFullNameOfPath elem_ns_list
        let r := funcs.foldl (fun (acc : CppNamespace × List String) f =>
          let r1 := CppNamespace.atPathApply
            (fun nsl => CppNamespace.add_function nsl
              (some { f with parentFullName := nsFull }))
            acc.1 elem_ns_list
          (r1.1, acc.2 ++ r1.2)) (st.2, ([] : List String))
        .ok (st.1 ++ diags ++ r.2, r.1))
    (([], CppNamespace.init "") : List String × CppNamespace)

/-! ## Command line (`py_binder.py` main block) -/

/-- Outcome of the argument-handling prologue of `py_binder.py`.  `usageExit`
carries the process exit status: Python's bare `sys.exit()` raises
`SystemExit(None)`, which terminates the process with status `0`. -/
inductive MainStart where
  | usageExit (message : String) (status : Nat)
  | run (xml_dir src_dir : String)
deriving DecidableEq

/-- The argument handling of `py_binder.py` (`argv` includes the program name
in position 0, as `sys.argv` does). -/
def parse_args (argv : List String) : MainStart :=
  let xml_dir := if argv.length ≥ 2 then pyStripChar '/' (argv.getD 1 "") else "./xml"
  let src_dir := if argv.length = 3 then pyStripChar '/' (argv.getD 2 "") else "./src"
  if argv.length > 3 then
    .usageExit ("Usage: " ++ argv.getD 0 "" ++ " [input_xml_dir=\"./xml\"] [output_src_dir=\"./src\"]") 0
  else
    .run xml_dir src_dir

/-! ## Boost.Python emitter (`py_binder/boost_writer.py`) -/

/-- `CppEscapeString`: escape backslash, quote and newline, in this order. -/
def CppEscapeString (txt : String) : String :=
  pyReplace ( pyReplace ( pyReplace txt "\\" "\\\\") "\"" "\\\"") "\n" "\\n"

/-- Index of the last occurrence of a character, if any. -/
def rfindChar (c : Char) (l : List Char) : Option Nat :=
  (l.foldl (fun (st : Nat × Option Nat) ch =>
    (st.1 + 1, if ch = c then some st.1 else st.2)) (0, none)).2

/-- `os.path.splitext(p)[0]`: drop the extension at the last dot of the base
name, unless the base name consists only of leading dots up to there. -/
def splitext_root (p : String) : String :=
  let l := p.data
  let sepIdx : Int := match rfindChar '/' l with
    | some i => (i : Int)
    | none => -1
  match rfindChar '.' l with
  | none => p
  | some di =>
    if sepIdx < (di : Int) then
      let fnameStart := (sepIdx + 1).toNat
      if ((l.drop fnameStart).take (di - fnameStart)).all (· = '.') then p
      else ⟨l.take di⟩
    else p

/-- `os.path.join(a, b)` (posix, two arguments). -/
def path_join (a b : String) : String :=
  if strStartsWith b "/" then b
  else if a = "" ∨ strEndsWith a "/" then a ++ b
  else a ++ "/" ++ b

def concatAll (l : List String) : String := l.foldl (· ++ ·) ""

/-- `class ExportFile` (the Python attribute `using` is a Lean keyword and is
called `using_ns` here). -/
structure ExportFile where
  scope : String
  using_ns : String
  includes : List String
  class_strings : PyDict String
  function_strings : List String
  func_templates : PyDict (List String)
deriving DecidableEq

def ExportFile.init : ExportFile := ⟨"", "", [], [], [], []⟩

/-- `BoostPythonWriter.classify_operator`: strip the `operator` lead of the
name and look the symbol up in the fixed category table; anything else
(including a symbol-less name) is `None`. -/
def BoostPythonWriter.classify_operator (op : CppFunction) : Option (String × String) :=
  if ¬ strStartsWith op.name "operator" then none
  else
    let symbol := pyStrip (strDrop op.name 8)
    if symbol ∈ ["+=", "-=", "*=", "/=", "%=", ">>=", "<<=", "&=", "^=", "|="] then
      some (symbol, "inplace")
    else if symbol ∈ ["==", "!=", "<", ">", "<=", ">="] then some (symbol, "comparison")
    else if symbol ∈ ["-", "+", "~", "!"] then some (symbol, "unary")
    else if symbol = "[]" then some (symbol, "array")
    else if symbol = "()" then some (symbol, "access")
    else if symbol = "<<" then some (symbol, "ostream")
    else if symbol ∈ ["*", "->"] then some (symbol, "dereference")
    else if symbol ∈ ["++", "--"] then some (symbol, "crement")
    else if symbol = "=" then some (symbol, "assignment")
    else if symbol ∈ ["bool"] then some (symbol, "conversion")
    else none

def BoostPythonWriter.make_section_header (symbol title : String)
    (indent length : Nat) : String :=
  "\n" ++ repeatStr " " indent ++ "// " ++ repeatStr symbol (length - 3) ++ "\n"
  ++ repeatStr " " indent ++ "//     " ++ title ++ "\n"
  ++ repeatStr " " indent ++ "// " ++ repeatStr symbol (length - 3) ++ "\n\n"

def BoostPythonWriter.make_section_header_major (title : String) : String :=
  BoostPythonWriter.make_section_header "=" title 0 80

def BoostPythonWriter.make_section_header_minor (title : String) : String :=
  BoostPythonWriter.make_section_header "-" title 4 70

/-- `BoostPythonWriter.generate_function_body` (default `py_name` is `""`). -/
def BoostPythonWriter.generate_function_body (func : CppFunction)
    (py_name : String) : String :=
  let v1 := "    boost::python::def(\n        \""
    ++ (if py_name = "" then func.name else py_name) ++ "\",\n        ( "
    ++ func.type ++ " ( * )( "
    ++ joinSep ", " (func.params.map (·.type))
    ++ " )" ++ ")( &" ++ CppFunction.cpp_full_name func ++ " )"
  let v2 := if func.params.length > 0 then
      v1 ++ ",\n        ( " ++ joinSep ", " (func.params.map (fun param =>
        "boost::python::arg(\"" ++ param.name ++ "\")"
        ++ (if param.value = "" then ""
            else "=(" ++ param.type ++ ")(" ++ param.value ++ ")"))) ++ " )"
    else v1
  let v3 := if strEndsWith ( pyStrip func.type) "*" ∨ strEndsWith ( pyStrip func.type) "&" then
      v2 ++ ",\n        boost::python::return_value_policy<boost::python::reference_existing_object>()"
    else v2
  let v4 := if func.briefdescription ≠ "" then
      v3 ++ ",\n        get_docstring(\"" ++ CppFunction.cpp_signature func true ++ "\")\n"
    else v3 ++ "\n"
  v4 ++ "    );\n"

def BoostPythonWriter.generate_class_constructor (ctor : CppFunction) : String :=
  "boost::python::init< "
  ++ joinSep ", " (ctor.params.map (fun p =>
      if p.value = "" then p.type else "boost::python::optional< " ++ p.type ++ " >"))
  ++ " >(" ++ (if ctor.params.length > 0 then "( " else " ")
  ++ joinSep ", " (ctor.params.map (fun p =>
      "boost::python::arg(\"" ++ p.name ++ "\")"
      ++ (if p.value = "" then "" else "=(" ++ p.type ++ ")(" ++ p.value ++ ")")))
  ++ " )" ++ (if ctor.params.length > 0 then ")" else "")

/-- `BoostPythonWriter.generate_class_header`: first constructor inline, the
remaining ones as `.def`, skipping move-constructor-shaped ones. -/
def BoostPythonWriter.generate_class_header (clss : CppClass) : String :=
  let ctor_val := match clss.ctors with
    | [] => ""
    | c0 :: _ => ", " ++ BoostPythonWriter.generate_class_constructor c0
  let ctype := if clss.template_params = none then CppClass.cpp_full_name clss
               else clss.name ++ "Type"
  let nm := if clss.template_params = none then "\"" ++ clss.name ++ "\""
            else "name.c_str()"
  let v := "    boost::python::class_< " ++ ctype ++ " > "
    ++ "( " ++ nm ++ ctor_val ++ " )\n"
  v ++ (clss.ctors.drop 1).foldl (fun acc ctor =>
    if ctor.params.length = 1 ∧ (ctor.params.headD ⟨"", "", ""⟩).type = clss.name ++ " &&" then
      acc
    else
      acc ++ "        .def( " ++ BoostPythonWriter.generate_class_constructor ctor ++ " )\n") ""

def BoostPythonWriter.generate_class_function_body (func : CppFunction)
    (ctype : Option String) (py_name : Option String) : String :=
  let ct := ctype.getD func.parentFullName
  let v1 := "        .def(\n            \""
    ++ (match py_name with | none => func.name | some p => p) ++ "\",\n            ( "
    ++ func.type ++ " ( "
    ++ (if func.static then "*" else ct ++ "::*") ++ " )( "
    ++ joinSep ", " (func.params.map (·.type)) ++ " )"
    ++ (if func.const then " const " else "")
    ++ ")( &" ++ ct ++ "::" ++ func.name ++ " )"
  let v2 := if func.params.length > 0 then
      v1 ++ ",\n            ( " ++ joinSep ", " (func.params.map (fun param =>
        "boost::python::arg(\"" ++ param.name ++ "\")"
        ++ (if param.value = "" then ""
            else "=(" ++ param.type ++ ")(" ++ param.value ++ ")"))) ++ " )"
    else v1
  let v3 := if strEndsWith ( pyStrip func.type) "*" ∨ strEndsWith ( pyStrip func.type) "&" then
      v2 ++ ",\n            boost::python::return_value_policy<boost::python::reference_existing_object>()"
    else v2
  let v4 := if func.briefdescription ≠ "" then
      v3 ++ ",\n            get_docstring(\"" ++ CppFunction.cpp_signature func true ++ "\")\n"
    else v3 ++ "\n"
  let v5 := v4 ++ "        )\n"
  if func.static then
    v5 ++ "        .staticmethod(\""
    ++ (match py_name with | none => func.name | some p => p) ++ "\")\n"
  else v5

/-- `BoostPythonWriter.generate_class_methods`: render every method, then
emit the distinct rendered texts in sorted order. -/
def BoostPythonWriter.generate_class_methods (clss : CppClass) : String :=
  if clss.methods.length = 0 then ""
  else
    let ctype := if clss.template_params = none then none
                 else some (clss.name ++ "Type")
    let m_list := clss.methods.map
      (fun f => BoostPythonWriter.generate_class_function_body f ctype none)
    "\n        // Public Member Functions\n\n"
    ++ concatAll (stableSort strLe (dedupKeepFirst m_list))

/-- The loop body of `BoostPythonWriter.generate_class_operators` for one
operator: accumulates rendered text and printed diagnostics. -/
def BoostPythonWriter.operator_step (clss : CppClass) (ctype : Option String)
    (acc : String × List String) (operator : CppFunction) : String × List String :=
  match BoostPythonWriter.classify_operator operator with
  | none => (acc.1, acc.2 ++ ["Weird. Empty operator in class " ++ clss.name])
  | some op_class =>
    if op_class.2 = "inplace" ∨ op_class.2 = "comparison" then
      (acc.1 ++ "        .def( boost::python::self " ++ op_class.1
        ++ " boost::python::self )\n", acc.2)
    else if op_class.2 = "unary" then
      (acc.1 ++ "        .def( " ++ op_class.1 ++ "boost::python::self )\n", acc.2)
    else if op_class.2 = "array" then
      (acc.1 ++ BoostPythonWriter.generate_class_function_body operator ctype
        (some "__getitem__"), acc.2)
    else if op_class.2 = "access" then acc
    else if op_class.2 = "ostream" then
      (acc.1 ++ "        .def( boost::python::self_ns::str( boost::python::self ) )\n",
        acc.2)
    else if op_class.2 = "dereference" ∨ op_class.2 = "crement"
         ∨ op_class.2 = "assignment" ∨ op_class.2 = "conversion" then acc
    else
      (acc.1, acc.2 ++ ["Operator type not handled: " ++ op_class.2 ++ " "
        ++ operator.name])

/-- `BoostPythonWriter.generate_class_operators`: renders the supported
operator categories and prints a message for unclassified operators (and for
the unreachable fall-through branch); returns (text, diagnostics). -/
def BoostPythonWriter.generate_class_operators (clss : CppClass) :
    String × List String :=
  if clss.operators.length = 0 then ("", [])
  else
    let ctype := if clss.template_params = none then none
                 else some (clss.name ++ "Type")
    let r := clss.operators.foldl (BoostPythonWriter.operator_step clss ctype) ("", [])
    (if r.1 ≠ "" then "\n        // Operators\n\n" ++ r.1 else r.1, r.2)

def BoostPythonWriter.generate_class_iterators (clss : CppClass) : String :=
  if clss.iterators.length = 0 then ""
  else
    let ctype := if clss.template_params = none then CppClass.cpp_full_name clss
                 else clss.name ++ "Type"
    "\n        // Iterators\n\n"
    ++ concatAll (clss.iterators.map (fun it =>
        (if it.name = "__iter__" then "        .def" else "        .add_property")
        ++ "(\n            \"" ++ it.name ++ "\",\n            boost::python::range ( &"
        ++ ctype ++ "::" ++ it.begin ++ ", &" ++ ctype ++ "::" ++ it.end_
        ++ " )\n        )\n"))

/-- `BoostPythonWriter.generate_class`: header (with the template preamble
when needed), methods, operators, iterators; returns (text, diagnostics). -/
def BoostPythonWriter.generate_class (clss : CppClass) : String × List String :=
  let v0 := BoostPythonWriter.make_section_header_minor ("Class " ++ clss.name)
  let v1 := match clss.template_params with
    | none => v0 ++ BoostPythonWriter.generate_class_header clss
    | some tp => v0 ++ "    using namespace " ++ clss.parentFullName ++ ";\n\n"
      ++ "    using " ++ clss.name ++ "Type = " ++ clss.name ++ "<"
      ++ joinSep ", " tp ++ ">;\n\n"
      ++ BoostPythonWriter.generate_class_header clss
  let ops := BoostPythonWriter.generate_class_operators clss
  (v1 ++ BoostPythonWriter.generate_class_methods clss ++ ops.1
    ++ BoostPythonWriter.generate_class_iterators clss ++ "    ;\n", ops.2)

/-- State of `generate_docstring_file`: the `written_signatures` dedup list,
the printed warnings, the signatures of the emitted map lines in order (one
per line actually written, duplicates included), and the text so far. -/
structure DocState where
  written : List String
  warns : List String
  entries : List String
  text : String
deriving DecidableEq

/-- The local helper `write_docstring(func)` of
`BoostPythonWriter.generate_docstring_file`: a function with any
documentation text gets a map line; a signature seen before additionally
prints a warning — but the line is written regardless, because the write is
outside the `else` branch. -/
def BoostPythonWriter.write_docstring (st : DocState) (func : CppFunction) : DocState :=
  if func.briefdescription ≠ "" ∨ func.detaileddescription ≠ "" then
    let sig := CppFunction.cpp_signature func true
    let st1 :=
      if sig ∈ st.written then
        { st with warns := st.warns
            ++ ["Warn: Signature already in docstring file: " ++ sig] }
      else { st with written := st.written ++ [sig] }
    let line := "    \x7b\"" ++ sig ++ "\", \""
      ++ (if func.briefdescription ≠ "" then CppEscapeString func.briefdescription else "")
      ++ (if func.briefdescription ≠ "" ∧ func.detaileddescription ≠ "" then "\\n\\n" else "")
      ++ (if func.detaileddescription ≠ "" then CppEscapeString func.detaileddescription else "")
      ++ "\"\x7d,\n"
    { st1 with entries := st1.entries ++ [sig]
               text := st1.text ++ line }
  else st

def docstringFileHeader : String :=
  "/**\n* @brief Documentation strings for the Python module.\n *\n * @file\n * @ingroup python\n */\n\n#include <python/src/common.hpp>\n\n#include <map>\n#include <string>\n\nstatic std::map<std::string, std::string> doc_strings_ = \x7b\n"

def docstringFileFooter : String :=
  "\x7d;\n\nconst char* get_docstring (const std::string& signature)\n\x7b\n    if (doc_strings_.count(signature) > 0) \x7b\n        return doc_strings_[signature].c_str();\n    \x7d else \x7b\n        return \"\";\n    \x7d\n\x7d\n"

/-- `BoostPythonWriter.generate_docstring_file`: class methods sorted by
name, then all free functions sorted by object order (`cmp`, Python-2
address comparison).  Returns ((file name, file text), emitted-line
signatures, warnings). -/
def BoostPythonWriter.generate_docstring_file (ns : CppNamespace)
    (directory : String) (cmp : CppFunction → CppFunction → Bool) :
    (String × String) × List String × List String :=
  let st0 : DocState := ⟨[], [], [], docstringFileHeader⟩
  let st1 := (CppNamespace.get_all_classes ns).foldl (fun st clss =>
    let st2 := (stableSort (fun a b => strLe a.name b.name) clss.methods).foldl
      BoostPythonWriter.write_docstring st
    { st2 with text := st2.text ++ "\n" }) st0
  let st3 := (stableSort cmp (CppNamespace.get_all_functions ns)).foldl
    BoostPythonWriter.write_docstring st1
  (( path_join directory "docstrings.cpp", st3.text ++ docstringFileFooter),
    st3.entries, st3.warns)

/-- File contents for one export file, as written by the body of the loop in
`BoostPythonWriter.write_export_files` (after the intro/include boilerplate
everything is driven by the collected `ExportFile`). -/
def BoostPythonWriter.export_file_text (filename : String) (exp : ExportFile) : String :=
  let intro := "/**\n * @brief\n *\n * @file\n * @ingroup python\n */\n\n"
    ++ "#include <python/src/common.hpp>\n\n"
    ++ "#include \"lib/genesis.hpp\"\n"
  let usingPart := if exp.using_ns ≠ "" then "\nusing namespace " ++ exp.using_ns ++ ";\n"
                   else ""
  let classPart := concatAll (exp.class_strings.map (fun kv => "\n" ++ kv.2))
  let funcPart := if exp.function_strings.length > 0 then
      let identifier := pyReplace ( pyReplace ( splitext_root filename) "/" "_") "." "_"
        ++ "_export"
      "\nPYTHON_EXPORT_FUNCTIONS(" ++ identifier ++ ", \"" ++ exp.scope ++ "\")\n\x7b\n"
      ++ concatAll (exp.function_strings.map (fun s => "\n" ++ s))
      ++ "\x7d\n"
    else ""
  let tmplPart := if exp.func_templates.length > 0 then
      concatAll (exp.func_templates.map (fun kv =>
        let identifier := pyReplace ( pyReplace ( splitext_root filename) "/" "_") "." "_"
          ++ "_" ++ pyReplace ( pyReplace ( pyReplace ( pyReplace kv.1 "class" "")
                "typename" "") " " "") "," "_"
        "\ntemplate<" ++ kv.1 ++ ">\n"
        ++ "void python_export_function_" ++ identifier ++ " ()\n\x7b\n"
        ++ joinSep "\n" kv.2 ++ "\x7d\n")) ++ "\n"
    else ""
  intro ++ usingPart ++ classPart ++ funcPart ++ tmplPart

/-- The loop body of `BoostPythonWriter.write_export_files` for one
collected file: a leading `.` or `/` is prefixed with `unnamed`; an existing
file on disk only produces a warning; the write overwrites the disk entry. -/
def BoostPythonWriter.write_one_export (directory : String)
    (acc : (String → Option String) × List (String × String) × List String)
    (kv : String × ExportFile) :
    (String → Option String) × List (String × String) × List String :=
  let filename := if strStartsWith kv.1 "." ∨ strStartsWith kv.1 "/" then
      "unnamed" ++ kv.1
    else kv.1
  let fn := path_join directory filename
  let warns := if (acc.1 fn).isSome then
      acc.2.2 ++ ["Warn: File already exists: " ++ fn]
    else acc.2.2
  let content := BoostPythonWriter.export_file_text filename kv.2
  (fun q => if q = fn then some content else acc.1 q,
    acc.2.1 ++ [(fn, content)], warns)

/-- `BoostPythonWriter.write_export_files`: one write per collected file, in
dict order.  The disk is a lookup function; returns (writes in order,
warnings). -/
def BoostPythonWriter.write_export_files (export_files : PyDict ExportFile)
    (directory : String) (disk : String → Option String) :
    List (String × String) × List String :=
  let r := export_files.foldl (BoostPythonWriter.write_one_export directory)
    (disk, [], [])
  (r.2.1, r.2.2)

/-- The per-class paragraph of `BoostPythonWriter.generate_files` (the first
collection loop); updates the export-file dict and the warning list. -/
def BoostPythonWriter.collect_class (module_name : String)
    (st : PyDict ExportFile × List String) (clss : CppClass) :
    PyDict ExportFile × List String :=
  let scopeList := pySplit (CppClass.cpp_full_name clss) "::"
  if scopeList.getD 0 "" ≠ "" ∨ scopeList.getD 1 "" ≠ module_name then st
  else if scopeList.length > 4 then st
  else
    let scope := joinSep "." ((scopeList.drop 2).dropLast)
    let inc_file := splitext_root clss.location ++ ".hpp"
    let clss_file := if clss.template_params = none then
        splitext_root clss.location ++ ".cpp"
      else splitext_root clss.location ++ ".hpp"
    let d0 := if PyDict.has_key st.1 clss_file then st.1
              else PyDict.set st.1 clss_file { ExportFile.init with scope := scope }
    let exp := ( PyDict.lookup d0 clss_file).getD ExportFile.init
    let w1 := if exp.scope ≠ scope then
        ["Warn: Multiple scopes in one file: " ++ exp.scope ++ " and " ++ scope]
      else []
    let w2 := if PyDict.has_key exp.class_strings clss.name then
        ["Warn. Export file " ++ clss_file ++ " already has class " ++ clss.name]
      else []
    let (exp1, w3, clss_str) :=
      match clss.template_params with
      | none =>
        let w3 := if exp.using_ns ∉ (["", clss.parentFullName] : List String) then
            ["Warn: using namespace already set to " ++ exp.using_ns
              ++ " instead of " ++ clss.parentFullName]
          else []
        let body := "PYTHON_EXPORT_CLASS (" ++ clss.name ++ ", \"" ++ scope ++ "\")\n\x7b\n"
          ++ (BoostPythonWriter.generate_class clss).1 ++ "\x7d\n"
        ({ exp with using_ns := clss.parentFullName }, w3, body)
      | some tp =>
        let body := "template <" ++ joinSep ", " tp ++ ">\n"
          ++ "void PythonExportClass_" ++ clss.name ++ "(std::string name)\n\x7b\n"
          ++ (BoostPythonWriter.generate_class clss).1 ++ "\x7d\n"
        (exp, [], body)
    let exp2 := { exp1 with includes := exp1.includes ++ [inc_file]
                            class_strings := PyDict.set exp1.class_strings clss.name clss_str }
    ( PyDict.set d0 clss_file exp2,
      st.2 ++ w1 ++ w2 ++ w3 ++ (BoostPythonWriter.generate_class clss).2)

/-- The per-function paragraph of `BoostPythonWriter.generate_files` (the
second collection loop). -/
def BoostPythonWriter.collect_function (module_name : String)
    (st : PyDict ExportFile × List String) (func : CppFunction) :
    PyDict ExportFile × List String :=
  let scopeList := pySplit (CppFunction.cpp_full_name func) "::"
  if scopeList.getD 0 "" ≠ "" ∨ scopeList.getD 1 "" ≠ module_name then st
  else if scopeList.length > 4 then st
  else
    let scope := joinSep "." ((scopeList.drop 2).dropLast)
    let inc_file := splitext_root func.location ++ ".hpp"
    let func_file := if func.template_params = none then
        splitext_root func.location ++ ".cpp"
      else splitext_root func.location ++ ".hpp"
    let d0 := if PyDict.has_key st.1 func_file then st.1
              else PyDict.set st.1 func_file { ExportFile.init with scope := scope }
    let exp := ( PyDict.lookup d0 func_file).getD ExportFile.init
    let w1 := if exp.scope ≠ scope then
        ["Warn: Multiple scopes in one file: " ++ exp.scope ++ " and " ++ scope]
      else []
    let w2 := if exp.using_ns ∉ (["", func.parentFullName] : List String) then
        ["Warn: using namespace already set to " ++ exp.using_ns
          ++ " instead of " ++ func.parentFullName]
      else []
    let exp1 := { exp with using_ns := func.parentFullName
                           includes := exp.includes ++ [inc_file] }
    let exp2 := match func.template_params with
      | none =>
        { exp1 with function_strings := exp1.function_strings
            ++ [BoostPythonWriter.generate_function_body func ""] }
      | some tp =>
        let tmpl_params := joinSep ", " tp
        let func_str := BoostPythonWriter.generate_function_body func ""
        let old := ( PyDict.lookup exp1.func_templates tmpl_params).getD []
        { exp1 with func_templates :=
            PyDict.set exp1.func_templates tmpl_params (old ++ [func_str]) }
    ( PyDict.set d0 func_file exp2, st.2 ++ w1 ++ w2)

/-- `BoostPythonWriter.generate_files`: collect per-file exports over all
classes and free functions, write the export files, then the docstring file.
Returns (writes in order, warnings).  `cmp` is the object-order oracle used
by the docstring generator's `sorted` over function objects, `disk` the
pre-existing output files. -/
def BoostPythonWriter.generate_files (ns : CppNamespace) (directory : String)
    (module_name : String) (cmp : CppFunction → CppFunction → Bool)
    (disk : String → Option String) : List (String × String) × List String :=
  let st1 := (CppNamespace.get_all_classes ns).foldl
    (BoostPythonWriter.collect_class module_name) ([], [])
  let st2 := (CppNamespace.get_all_functions ns).foldl
    (BoostPythonWriter.collect_function module_name) st1
  let w := BoostPythonWriter.write_export_files st2.1 directory disk
  let d := BoostPythonWriter.generate_docstring_file ns directory cmp
  (w.1 ++ [d.1], st2.2 ++ w.2 ++ d.2.2)

/-! ## Pybind11 emitter (`py_binder/pybind11_writer.py`), the parts relevant
to operator classification and its diagnostics -/

/-- `Pybind11Writer.classify_operator` (same fixed table as the boost one). -/
def Pybind11Writer.classify_operator (op : CppFunction) : Option (String × String) :=
  if ¬ strStartsWith op.name "operator" then none
  else
    let symbol := pyStrip (strDrop op.name 8)
    if symbol ∈ ["+=", "-=", "*=", "/=", "%=", ">>=", "<<=", "&=", "^=", "|="] then
      some (symbol, "inplace")
    else if symbol ∈ ["==", "!=", "<", ">", "<=", ">="] then some (symbol, "comparison")
    else if symbol ∈ ["-", "+", "~", "!"] then some (symbol, "unary")
    else if symbol = "[]" then some (symbol, "array")
    else if symbol = "()" then some (symbol, "access")
    else if symbol = "<<" then some (symbol, "ostream")
    else if symbol ∈ ["*", "->"] then some (symbol, "dereference")
    else if symbol ∈ ["++", "--"] then some (symbol, "crement")
    else if symbol = "=" then some (symbol, "assignment")
    else if symbol ∈ ["bool"] then some (symbol, "conversion")
    else none

def Pybind11Writer.generate_class_function_body (func : CppFunction)
    (ctype : Option String) (py_name : Option String) : String :=
  let ct := ctype.getD func.parentFullName
  let v1 := "        .def" ++ (if func.static then "_static" else "") ++ "(\n            \""
    ++ (match py_name with | none => func.name | some p => p) ++ "\",\n            ( "
    ++ func.type ++ " ( "
    ++ (if func.static then "*" else ct ++ "::*") ++ " )( "
    ++ joinSep ", " (func.params.map (·.type)) ++ " )"
    ++ (if func.const then " const " else "")
    ++ ")( &" ++ ct ++ "::" ++ func.name ++ " )"
  let v2 := if func.params.length > 0 then
      v1 ++ concatAll (func.params.map (fun param =>
        ",\n            " ++ "pybind11::arg(\"" ++ param.name ++ "\")"
        ++ (if param.value = "" then ""
            else "=(" ++ param.type ++ ")(" ++ param.value ++ ")")))
    else v1
  let v3 := if func.briefdescription ≠ "" then
      v2 ++ ",\n            get_docstring(\""
        ++ CppEscapeString (CppFunction.cpp_signature func true) ++ "\")\n"
    else v2 ++ "\n"
  v3 ++ "        )\n"

/-- The loop body of `Pybind11Writer.generate_class_operators`. -/
def Pybind11Writer.operator_step (clss : CppClass) (ctype : Option String)
    (acc : String × List String) (operator : CppFunction) : String × List String :=
  match Pybind11Writer.classify_operator operator with
  | none => (acc.1, acc.2 ++ ["Weird. Empty operator in class " ++ clss.name])
  | some op_class =>
    if op_class.2 = "inplace" ∨ op_class.2 = "comparison" then
      (acc.1 ++ "        .def( pybind11::self " ++ op_class.1
        ++ " pybind11::self )\n", acc.2)
    else if op_class.2 = "unary" then
      (acc.1 ++ "        .def( " ++ op_class.1 ++ "pybind11::self )\n", acc.2)
    else if op_class.2 = "array" then
      (acc.1 ++ Pybind11Writer.generate_class_function_body operator ctype
        (some "__getitem__"), acc.2)
    else if op_class.2 = "access" then acc
    else if op_class.2 = "ostream" then
      (acc.1 ++ "        .def(\n            \"__str__\",\n            []( "
        ++ CppClass.cpp_full_name clss ++ " const& obj ) -> std::string \x7b\n"
        ++ "                std::ostringstream s;\n"
        ++ "                s << obj;\n"
        ++ "                return s.str();\n"
        ++ "            \x7d\n        )\n", acc.2)
    else if op_class.2 = "dereference" ∨ op_class.2 = "crement"
         ∨ op_class.2 = "assignment" ∨ op_class.2 = "conversion" then acc
    else
      (acc.1, acc.2 ++ ["Operator type not handled: " ++ op_class.2 ++ " "
        ++ operator.name])

/-- `Pybind11Writer.generate_class_operators`: same control flow as the boost
version with pybind11 text; unclassified operators print the same message. -/
def Pybind11Writer.generate_class_operators (clss : CppClass) :
    String × List String :=
  if clss.operators.length = 0 then ("", [])
  else
    let ctype := if clss.template_params = none then none
                 else some (clss.name ++ "Type")
    let r := clss.operators.foldl (Pybind11Writer.operator_step clss ctype) ("", [])
    (if r.1 ≠ "" then "\n        // Operators\n\n" ++ r.1 else r.1, r.2)

/-! ## Fixtures used by the verification theorems -/

/-- A plain public method with the given name. -/
def fixtureMethod (nm : String) : CppFunction :=
  ⟨"", nm, none, "public", false, false, false, "void", [], "", "", ""⟩

/-- A class whose methods carry the given names and which has no iterators. -/
def fixtureClass (nms : List String) : CppClass :=
  { CppClass.init "T" with methods := nms.map fixtureMethod }

def mkTextNode (tg txt : String) : XmlNode := .mk tg [] txt []

/-- A well-formed `memberdef` of kind `function` with the given name, return
type and location file. -/
def mkMemberNode (nm ty loc : String) : XmlNode :=
  .mk "memberdef"
    [("kind", "function"), ("prot", "public"), ("static", "no"),
     ("const", "no"), ("virt", "non-virtual")] ""
    [mkTextNode "name" nm, mkTextNode "type" ty,
     mkTextNode "briefdescription" "", mkTextNode "detaileddescription" "",
     .mk "location" [("file", loc)] "" []]

/-- A class compound `genesis::Tree` with one public function section holding
the given members and a compound-level location attribute `fallback.hpp`. -/
def mkClassCompound (members : List XmlNode) : XmlNode :=
  .mk "compounddef" [("kind", "class")] ""
    [mkTextNode "compoundname" "genesis::Tree",
     mkTextNode "briefdescription" "", mkTextNode "detaileddescription" "",
     .mk "location" [("file", "fallback.hpp")] "" [],
     .mk "sectiondef" [("kind", "public-func")] "" members]

/-- A detail document whose class has two members located in `l1` and `l2`. -/
def rootTwoLocs (l1 l2 : String) : XmlNode :=
  .mk "doxygen" [] "" [mkClassCompound
    [mkMemberNode "f1" "void" l1, mkMemberNode "f2" "int" l2]]

/-- A detail document whose class has no members at all. -/
def rootNoMembers : XmlNode := .mk "doxygen" [] "" [mkClassCompound []]

/-- A member with kind `function` but an unexpected tag. -/
def badMember : XmlNode := .mk "weird" [("kind", "function")] "" []

def badMemberRoot : XmlNode := .mk "doxygen" [] "" [mkClassCompound [badMember]]

/-- A `set.pop` oracle returning the first (first-inserted) element. -/
def popFirst : List String → String := fun l => l.headD ""

/-- A `set.pop` oracle returning the last element — equally admissible for
CPython's `set.pop`, whose choice of element is unspecified. -/
def popLast : List String → String := fun l => l.getLast?.getD ""

/-- The class locations of a `parse_class_file` result. -/
def parsedLocations (r : Except String (List String × List CppClass)) : List String :=
  match r with
  | .ok p => p.2.map CppClass.location
  | .error _ => []

/-- The diagnostics of a `parse_class_file` result. -/
def parsedDiags (r : Except String (List String × List CppClass)) : List String :=
  match r with
  | .ok p => p.1
  | .error _ => []

/-- Two distinct documented methods (they differ in `virtual` and in their
documentation) that render to the same canonical signature. -/
def dupM1 : CppFunction :=
  ⟨"::genesis::C", "f", none, "public", false, false, false, "void", [],
    "doc one", "", "c.cpp"⟩

def dupM2 : CppFunction :=
  ⟨"::genesis::C", "f", none, "public", false, false, true, "void", [],
    "doc two", "", "c.cpp"⟩

def dupClass : CppClass :=
  { CppClass.init "C" with parentFullName := "::genesis"
                           methods := [dupM1, dupM2]
                           location := "genesis/c.cpp" }

def nsDup : CppNamespace := .mk "" [] [("::genesis::C", dupClass)] [] "" ""

/-- A documented free function. -/
def fixtureFreeFn (nm brief : String) : CppFunction :=
  ⟨"::genesis", nm, none, "public", false, false, false, "void", [], brief, "",
    "genesis/" ++ nm ++ ".cpp"⟩

/-- A root namespace holding two documented free functions. -/
def nsTwoFns : CppNamespace :=
  .mk "" [] []
    [("k1", fixtureFreeFn "alpha" "Doc A"), ("k2", fixtureFreeFn "beta" "Doc B")] "" ""

/-- Two admissible Python-2 object orders over `CppFunction` instances (the
address order of a concrete run is some such total order). -/
def cmpAsc : CppFunction → CppFunction → Bool := fun f g => strLe f.name g.name

def cmpDesc : CppFunction → CppFunction → Bool := fun f g => strLe g.name f.name

/-- A class located outside the prefix `xy` whose method is located inside it. -/
def fixtureM8 : CppFunction :=
  ⟨"::genesis::D", "m", none, "public", false, false, false, "void", [], "", "", "xyfoo"⟩

def fixtureClass8 : CppClass :=
  { CppClass.init "D" with parentFullName := "::genesis"
                           methods := [fixtureM8]
                           location := "abc" }

def ns8 : CppNamespace := .mk "" [] [("::genesis::D", fixtureClass8)] [] "" ""

/-! ## Claim theorems -/

/-- C10: passing `None` to the model-building entry points is a silent no-op:
`CppClass.add_function`, `CppNamespace.add_class`, `CppNamespace.add_function`
and `CppNamespace.create_namespace` leave the receiver unchanged and print no
diagnostic. -/
theorem C10_none_is_noop (c : CppClass) (ns : CppNamespace) :
    CppClass.add_function c none = c
    ∧ CppNamespace.add_class ns none = (ns, [])
    ∧ CppNamespace.add_function ns none = (ns, [])
    ∧ CppNamespace.create_namespace ns none = ns :=
  ⟨rfl, rfl, rfl, rfl⟩

/-- C9 counterexample: with three positional arguments (four `argv` entries)
the program prints the usage message but exits through the bare `sys.exit()`,
whose `SystemExit(None)` terminates the process with status `0` — a success
status, not the non-zero-equivalent status the claim requires. -/
theorem C9_counterexample :
    parse_args ["prog", "a", "b", "c"]
      = .usageExit "Usage: prog [input_xml_dir=\"./xml\"] [output_src_dir=\"./src\"]" 0 := by
  decide

/-- C9 amended: more than two positional arguments print the usage message
and exit with status `0` (success, from the argument-less `sys.exit()`);
with zero, one or two arguments the program proceeds, defaulting the input
directory to `./xml` and the output directory to `./src` and stripping
slashes off supplied arguments. -/
theorem C9_amended (argv : List String) (a0 a1 a2 : String) :
    (argv.length > 3 →
      parse_args argv = .usageExit ("Usage: " ++ argv.getD 0 ""
        ++ " [input_xml_dir=\"./xml\"] [output_src_dir=\"./src\"]") 0)
    ∧ parse_args [a0] = .run "./xml" "./src"
    ∧ parse_args [a0, a1] = .run ( pyStripChar '/' a1) "./src"
    ∧ parse_args [a0, a1, a2] = .run ( pyStripChar '/' a1) ( pyStripChar '/' a2) := by
  refine ⟨fun h3 => ?_, ?_, ?_, ?_⟩
  · unfold parse_args
    rw [if_pos h3]
  · rfl
  · rfl
  · rfl

/-- C9 witness: the amended claim evaluated at concrete argument vectors. -/
theorem C9_amended_witness :
    parse_args ["prog", "a", "b", "c"]
      = .usageExit ("Usage: " ++ (["prog", "a", "b", "c"].getD 0 "")
        ++ " [input_xml_dir=\"./xml\"] [output_src_dir=\"./src\"]") 0
    ∧ parse_args ["prog"] = .run "./xml" "./src" :=
  ⟨(C9_amended ["prog", "a", "b", "c"] "prog" "x" "y").1 (by decide),
   (C9_amended ["prog"] "prog" "x" "y").2.1⟩

/-- Unfolding of `extract_iterators` with named extraction off: only the
default `begin`/`end` pair is considered. -/
theorem extract_iterators_false (c : CppClass) :
    CppClass.extract_iterators c false =
      (if "begin" ∈ c.methods.map CppFunction.name
          ∧ "end" ∈ c.methods.map CppFunction.name then
        { CppClass.add_iterator c with
          methods := c.methods.filter (fun f => ¬ (f.name = "begin" ∨ f.name = "end")) }
      else c) := rfl

/-- C5: a class with methods literally named `begin` and `end` (and no
pre-existing iterators) gets exactly one default iterator, exposed under the
iteration-protocol name `__iter__`, and afterwards has no method named
`begin` or `end`; a class lacking either name is left completely unchanged by
the default-iterator step (`extract_iterators` with named extraction off). -/
theorem C5_default_iterator_extraction (c : CppClass)
    (hb : "begin" ∈ c.methods.map CppFunction.name)
    (he : "end" ∈ c.methods.map CppFunction.name)
    (hit : c.iterators = []) :
    (CppClass.extract_iterators c false).iterators = [⟨"__iter__", "begin", "end"⟩]
    ∧ (∀ f ∈ (CppClass.extract_iterators c false).methods,
        f.name ≠ "begin" ∧ f.name ≠ "end")
    ∧ (∀ c2 : CppClass,
        ¬ ("begin" ∈ c2.methods.map CppFunction.name
            ∧ "end" ∈ c2.methods.map CppFunction.name) →
        CppClass.extract_iterators c2 false = c2) := by
  refine ⟨?_, ?_, ?_⟩
  · rw [extract_iterators_false, if_pos ⟨hb, he⟩]
    simp [CppClass.add_iterator, CppClass.add_named_iterator, hit]
  · intro f hf
    rw [extract_iterators_false, if_pos ⟨hb, he⟩] at hf
    have hp := (List.mem_filter.mp hf).2
    simp only [decide_eq_true_eq] at hp
    exact not_or.mp hp
  · intro c2 hno
    rw [extract_iterators_false, if_neg hno]

/-- C5 witness: the theorem applied to a concrete class with `begin`, `end`
and one further method. -/
theorem C5_default_iterator_extraction_witness :
    (CppClass.extract_iterators (fixtureClass ["begin", "end", "foo"]) false).iterators
      = [⟨"__iter__", "begin", "end"⟩]
    ∧ (∀ f ∈ (CppClass.extract_iterators (fixtureClass ["begin", "end", "foo"]) false).methods,
        f.name ≠ "begin" ∧ f.name ≠ "end")
    ∧ (∀ c2 : CppClass,
        ¬ ("begin" ∈ c2.methods.map CppFunction.name
            ∧ "end" ∈ c2.methods.map CppFunction.name) →
        CppClass.extract_iterators c2 false = c2) :=
  C5_default_iterator_extraction (fixtureClass ["begin", "end", "foo"])
    (by decide) (by decide) rfl

/-- C6 counterexample: `BEGINBranches` matches the case-insensitive
`begin<Suffix>` scan, and there is no matching end method of any casing, so
the claim predicts zero iterators and an untouched method list; but the
`re.sub('^begin', ..., re.sub('^Begin', ...))` end-name derivation leaves
`BEGINBranches` unchanged, so the method is paired with itself: the code
produces one iterator (with `begin` and `end` both `BEGINBranches`) and
removes the method. -/
theorem C6_counterexample :
    (CppClass.extract_iterators (fixtureClass ["BEGINBranches"]) true).iterators
      = [⟨"Branches", "BEGINBranches", "BEGINBranches"⟩]
    ∧ (CppClass.extract_iterators (fixtureClass ["BEGINBranches"]) true).methods = [] := by
  decide

/-- C6 amended: named extraction behaves as claimed for method names with a
literal `begin`/`Begin` prefix — a `beginBranches`/`endBranches` pair yields
exactly one iterator keyed by the suffix `Branches` and removes both methods
(case rules applied symmetrically for `BeginBranches`/`EndBranches`); a
`beginBranches` without `endBranches` yields zero iterators and an unchanged
class; each distinct suffix is extracted at most once.  But the scan itself
is case-insensitive while the end-name derivation only rewrites the literal
prefixes, so a method in any other casing (e.g. `BEGINBranches`) is paired
with itself and extracted. -/
theorem C6_amended :
    (CppClass.extract_iterators (fixtureClass ["beginBranches", "endBranches"]) true).iterators
      = [⟨"Branches", "beginBranches", "endBranches"⟩]
    ∧ (CppClass.extract_iterators (fixtureClass ["beginBranches", "endBranches"]) true).methods = []
    ∧ (CppClass.extract_iterators (fixtureClass ["BeginBranches", "EndBranches"]) true).iterators
      = [⟨"Branches", "BeginBranches", "EndBranches"⟩]
    ∧ CppClass.extract_iterators (fixtureClass ["beginBranches"]) true
      = fixtureClass ["beginBranches"]
    ∧ (CppClass.extract_iterators
        (fixtureClass ["beginBranches", "BeginBranches", "endBranches", "EndBranches"]) true).iterators
      = [⟨"Branches", "beginBranches", "endBranches"⟩]
    ∧ ((CppClass.extract_iterators
        (fixtureClass ["beginBranches", "BeginBranches", "endBranches", "EndBranches"]) true).methods.map
          CppFunction.name) = ["BeginBranches", "EndBranches"]
    ∧ (CppClass.extract_iterators (fixtureClass ["BEGINBranches"]) true).methods = [] := by
  decide

/-- The fixed category vocabulary of both operator classifiers. -/
def operatorCategories : List String :=
  ["inplace", "comparison", "unary", "array", "access", "ostream",
   "dereference", "crement", "assignment", "conversion"]

set_option maxHeartbeats 2000000 in
/-- A classified boost category always comes from the fixed vocabulary. -/
theorem boost_classify_cat (op : CppFunction) (sym cat : String)
    (h : BoostPythonWriter.classify_operator op = some (sym, cat)) :
    cat ∈ operatorCategories := by
  unfold BoostPythonWriter.classify_operator at h
  simp only [] at h
  set symbol := pyStrip (strDrop op.name 8) with hsym
  set b := strStartsWith op.name "operator" with hb
  repeat' split at h
  all_goals first
    | exact Option.noConfusion h
    | (injection h with h1; injection h1 with hs hc; subst hc; decide)

/-- Whatever the boost classifier returns, the category is from the fixed
vocabulary. -/
theorem boost_classify_total (op : CppFunction) :
    BoostPythonWriter.classify_operator op = none
    ∨ ∃ sym cat, BoostPythonWriter.classify_operator op = some (sym, cat)
        ∧ cat ∈ operatorCategories := by
  cases h : BoostPythonWriter.classify_operator op with
  | none => exact Or.inl rfl
  | some p =>
    obtain ⟨s, c⟩ := p
    exact Or.inr ⟨s, c, rfl, boost_classify_cat op s c h⟩

set_option maxHeartbeats 2000000 in
/-- A classified pybind11 category always comes from the fixed vocabulary. -/
theorem pybind_classify_cat (op : CppFunction) (sym cat : String)
    (h : Pybind11Writer.classify_operator op = some (sym, cat)) :
    cat ∈ operatorCategories := by
  unfold Pybind11Writer.classify_operator at h
  simp only [] at h
  set symbol := pyStrip (strDrop op.name 8) with hsym
  set b := strStartsWith op.name "operator" with hb
  repeat' split at h
  all_goals first
    | exact Option.noConfusion h
    | (injection h with h1; injection h1 with hs hc; subst hc; decide)

/-- Same for the pybind11 classifier. -/
theorem pybind_classify_total (op : CppFunction) :
    Pybind11Writer.classify_operator op = none
    ∨ ∃ sym cat, Pybind11Writer.classify_operator op = some (sym, cat)
        ∧ cat ∈ operatorCategories := by
  cases h : Pybind11Writer.classify_operator op with
  | none => exact Or.inl rfl
  | some p =>
    obtain ⟨s, c⟩ := p
    exact Or.inr ⟨s, c, rfl, pybind_classify_cat op s c h⟩

/-- One boost operator step never deletes already collected diagnostics. -/
theorem boost_operator_step_mono (clss : CppClass) (ctype : Option String)
    (acc : String × List String) (op : CppFunction) (x : String)
    (hx : x ∈ acc.2) :
    x ∈ (BoostPythonWriter.operator_step clss ctype acc op).2 := by
  unfold BoostPythonWriter.operator_step
  split
  · exact List.mem_append_left _ hx
  · repeat' split
    all_goals first
      | exact hx
      | exact List.mem_append_left _ hx

/-- Diagnostics survive the whole boost operator fold. -/
theorem boost_operator_fold_mono (clss : CppClass) (ctype : Option String)
    (l : List CppFunction) (x : String) :
    ∀ acc : String × List String, x ∈ acc.2 →
      x ∈ (l.foldl (BoostPythonWriter.operator_step clss ctype) acc).2 := by
  induction l with
  | nil => intro acc hx; exact hx
  | cons hd tl ih =>
    intro acc hx
    exact ih _ (boost_operator_step_mono clss ctype acc hd x hx)

/-- An unclassified operator in the list deposits its message in the fold. -/
theorem boost_operator_fold_warn (clss : CppClass) (ctype : Option String)
    (l : List CppFunction) (op : CppFunction) (hmem : op ∈ l)
    (hcl : BoostPythonWriter.classify_operator op = none) :
    ∀ acc : String × List String,
      ("Weird. Empty operator in class " ++ clss.name) ∈
        (l.foldl (BoostPythonWriter.operator_step clss ctype) acc).2 := by
  induction l with
  | nil => cases hmem
  | cons hd tl ih =>
    intro acc
    rcases List.mem_cons.mp hmem with heq | htl
    · subst heq
      rw [List.foldl_cons]
      apply boost_operator_fold_mono
      simp only [BoostPythonWriter.operator_step, hcl]
      exact List.mem_append_right _ (List.mem_singleton.mpr rfl)
    · rw [List.foldl_cons]
      exact ih htl _

/-- One pybind11 operator step never deletes already collected diagnostics. -/
theorem pybind_operator_step_mono (clss : CppClass) (ctype : Option String)
    (acc : String × List String) (op : CppFunction) (x : String)
    (hx : x ∈ acc.2) :
    x ∈ (Pybind11Writer.operator_step clss ctype acc op).2 := by
  unfold Pybind11Writer.operator_step
  split
  · exact List.mem_append_left _ hx
  · repeat' split
    all_goals first
      | exact hx
      | exact List.mem_append_left _ hx

/-- Diagnostics survive the whole pybind11 operator fold. -/
theorem pybind_operator_fold_mono (clss : CppClass) (ctype : Option String)
    (l : List CppFunction) (x : String) :
    ∀ acc : String × List String, x ∈ acc.2 →
      x ∈ (l.foldl (Pybind11Writer.operator_step clss ctype) acc).2 := by
  induction l with
  | nil => intro acc hx; exact hx
  | cons hd tl ih =>
    intro acc hx
    exact ih _ (pybind_operator_step_mono clss ctype acc hd x hx)

/-- An unclassified operator in the list deposits its message in the fold. -/
theorem pybind_operator_fold_warn (clss : CppClass) (ctype : Option String)
    (l : List CppFunction) (op : CppFunction) (hmem : op ∈ l)
    (hcl : Pybind11Writer.classify_operator op = none) :
    ∀ acc : String × List String,
      ("Weird. Empty operator in class " ++ clss.name) ∈
        (l.foldl (Pybind11Writer.operator_step clss ctype) acc).2 := by
  induction l with
  | nil => cases hmem
  | cons hd tl ih =>
    intro acc
    rcases List.mem_cons.mp hmem with heq | htl
    · subst heq
      rw [List.foldl_cons]
      apply pybind_operator_fold_mono
      simp only [Pybind11Writer.operator_step, hcl]
      exact List.mem_append_right _ (List.mem_singleton.mpr rfl)
    · rw [List.foldl_cons]
      exact ih htl _

/-- C2: both operator classifiers are total functions into the fixed category
vocabulary with `none` as the explicit unclassified marker (being Lean
functions of the token string, they cannot raise); and both emitters surface
every unclassified operator of a class as a "Weird. Empty operator" printed
diagnostic instead of dropping it silently. -/
theorem C2_classify_total_and_surfaced :
    (∀ op : CppFunction,
      BoostPythonWriter.classify_operator op = none
      ∨ ∃ sym cat, BoostPythonWriter.classify_operator op = some (sym, cat)
          ∧ cat ∈ operatorCategories)
    ∧ (∀ op : CppFunction,
      Pybind11Writer.classify_operator op = none
      ∨ ∃ sym cat, Pybind11Writer.classify_operator op = some (sym, cat)
          ∧ cat ∈ operatorCategories)
    ∧ (∀ (clss : CppClass) (op : CppFunction), op ∈ clss.operators →
        BoostPythonWriter.classify_operator op = none →
        ("Weird. Empty operator in class " ++ clss.name) ∈
          (BoostPythonWriter.generate_class_operators clss).2)
    ∧ (∀ (clss : CppClass) (op : CppFunction), op ∈ clss.operators →
        Pybind11Writer.classify_operator op = none →
        ("Weird. Empty operator in class " ++ clss.name) ∈
          (Pybind11Writer.generate_class_operators clss).2) := by
  refine ⟨boost_classify_total, pybind_classify_total, ?_, ?_⟩
  · intro clss op hmem hcl
    unfold BoostPythonWriter.generate_class_operators
    rw [if_neg (by
      intro hlen
      rw [List.length_eq_zero] at hlen
      rw [hlen] at hmem
      cases hmem)]
    exact boost_operator_fold_warn clss _ clss.operators op hmem hcl ("", [])
  · intro clss op hmem hcl
    unfold Pybind11Writer.generate_class_operators
    rw [if_neg (by
      intro hlen
      rw [List.length_eq_zero] at hlen
      rw [hlen] at hmem
      cases hmem)]
    exact pybind_operator_fold_warn clss _ clss.operators op hmem hcl ("", [])

/-- C2 witness: a concrete conversion-operator token is unclassified and both
emitters print the diagnostic for a concrete class carrying it. -/
theorem C2_classify_total_and_surfaced_witness :
    ("Weird. Empty operator in class T") ∈
      (BoostPythonWriter.generate_class_operators
        { CppClass.init "T" with operators := [fixtureMethod "operator std::string"] }).2
    ∧ ("Weird. Empty operator in class T") ∈
      (Pybind11Writer.generate_class_operators
        { CppClass.init "T" with operators := [fixtureMethod "operator std::string"] }).2 := by
  constructor
  · have h := C2_classify_total_and_surfaced.2.2.1
      { CppClass.init "T" with operators := [fixtureMethod "operator std::string"] }
      (fixtureMethod "operator std::string") (by decide) (by decide)
    simpa using h
  · have h := C2_classify_total_and_surfaced.2.2.2
      { CppClass.init "T" with operators := [fixtureMethod "operator std::string"] }
      (fixtureMethod "operator std::string") (by decide) (by decide)
    simpa using h

set_option maxRecDepth 10000 in
set_option maxHeartbeats 2000000 in
/-- C3 counterexample: `dupM1` and `dupM2` are two distinct documented
functions with the same canonical signature, and the emitted documentation
table retains TWO entries for that signature, not exactly one: the duplicate
diagnostic is printed, but the map line is written outside the `else` of the
already-registered check, so the duplicate entry is emitted anyway. -/
theorem C3_counterexample :
    dupM1 ≠ dupM2
    ∧ CppFunction.cpp_signature dupM1 true = CppFunction.cpp_signature dupM2 true
    ∧ (BoostPythonWriter.generate_docstring_file nsDup "" cmpAsc).2.1.count
        (CppFunction.cpp_signature dupM1 true) = 2
    ∧ (BoostPythonWriter.generate_docstring_file nsDup "" cmpAsc).2.1.count
        (CppFunction.cpp_signature dupM1 true) ≠ 1 := by
  decide

set_option maxRecDepth 10000 in
set_option maxHeartbeats 2000000 in
/-- C3 amended: on a model with two distinct documented functions of equal
canonical signature, docstring generation reports exactly one
duplicate-signature diagnostic, but the emitted table keeps one entry per
documented function — the duplicated signature appears twice in the file
text; signature uniqueness is only restored later by the consumer, because
`std::map` initialization keeps the first entry of a duplicate key. -/
theorem C3_amended :
    (BoostPythonWriter.generate_docstring_file nsDup "" cmpAsc).2.2
      = ["Warn: Signature already in docstring file: "
          ++ CppFunction.cpp_signature dupM1 true]
    ∧ (BoostPythonWriter.generate_docstring_file nsDup "" cmpAsc).2.1
      = [CppFunction.cpp_signature dupM1 true, CppFunction.cpp_signature dupM2 true]
    ∧ containsSub (BoostPythonWriter.generate_docstring_file nsDup "" cmpAsc).1.2
        "doc one" = true
    ∧ containsSub (BoostPythonWriter.generate_docstring_file nsDup "" cmpAsc).1.2
        "doc two" = true := by
  decide

/-- C4 (code bug): `parse_function` deliberately skips a member with an
unexpected tag by printing a diagnostic and returning `None`, but
`parse_class_file` immediately executes `func.parent = clss` on that result,
so a single malformed member (tag ≠ `memberdef` inside a public function
section, with `kind="function"`) aborts the whole run with an
`AttributeError` instead of being skipped. -/
theorem C4_crash_on_malformed_member :
    DoxygenReader.parse_function badMember = .ok (["Invalid xml tag: weird"], none)
    ∧ DoxygenReader.parse_class_file badMemberRoot popFirst
      = .error (errNoneAttr "parent") := by
  constructor
  · rfl
  · rfl

/-- `popLast` is an admissible `set.pop` oracle: it returns a member. -/
theorem popLast_mem (l : List String) (hl : l ≠ []) : popLast l ∈ l := by
  unfold popLast
  rw [List.getLast?_eq_getLast l hl]
  exact List.getLast_mem hl

/-- `popFirst` is an admissible `set.pop` oracle: it returns a member. -/
theorem popFirst_mem (l : List String) (hl : l ≠ []) : popFirst l ∈ l := by
  cases l with
  | nil => exact absurd rfl hl
  | cons hd tl => exact List.mem_cons_self hd tl

/-- C7 counterexample: the claim says that with disagreeing member locations
the FIRST-SEEN location is chosen.  The code executes `locations.pop()` on a
Python set, whose choice of element is unspecified (hash-table order), here
an oracle constrained only to return a member.  The admissible oracle that
returns the last-inserted element makes the class location `b.cpp`, not the
first-seen `a.cpp`, so first-seen is not guaranteed by the code. -/
theorem C7_counterexample :
    ¬ (∀ pop : List String → String, (∀ l : List String, l ≠ [] → pop l ∈ l) →
        parsedLocations (DoxygenReader.parse_class_file
          (rootTwoLocs "a.cpp" "b.cpp") pop) = ["a.cpp"]) := by
  intro hclaim
  have h1 := hclaim popLast popLast_mem
  have h2 : parsedLocations (DoxygenReader.parse_class_file
      (rootTwoLocs "a.cpp" "b.cpp") popLast) = ["b.cpp"] := by decide
  rw [h2] at h1
  exact absurd h1 (by decide)

/-- C7 amended: the class location is derived from the member locations — if
all members agree it is that unique file (for any admissible `set.pop`
oracle); if they disagree, the "Weird. Multiple locations" warning is printed
and SOME member location is chosen (which one is up to the unspecified set
order, not necessarily first-seen); with zero member locations the compound's
own location attribute is the fallback. -/
theorem C7_amended (pop : List String → String)
    (hpop : ∀ l : List String, l ≠ [] → pop l ∈ l) :
    parsedLocations (DoxygenReader.parse_class_file
      (rootTwoLocs "a.cpp" "a.cpp") pop) = ["a.cpp"]
    ∧ parsedLocations (DoxygenReader.parse_class_file
        (rootTwoLocs "a.cpp" "b.cpp") pop) = [pop ["a.cpp", "b.cpp"]]
    ∧ pop ["a.cpp", "b.cpp"] ∈ ["a.cpp", "b.cpp"]
    ∧ parsedDiags (DoxygenReader.parse_class_file
        (rootTwoLocs "a.cpp" "b.cpp") pop)
      = ["Weird. Multiple locations for class Tree"]
    ∧ parsedDiags (DoxygenReader.parse_class_file
        (rootTwoLocs "a.cpp" "a.cpp") pop) = []
    ∧ parsedLocations (DoxygenReader.parse_class_file rootNoMembers pop)
      = ["fallback.hpp"] := by
  refine ⟨?_, rfl, hpop ["a.cpp", "b.cpp"] (by decide), rfl, rfl, rfl⟩
  have hm := hpop ["a.cpp"] (by decide)
  rw [List.mem_singleton] at hm
  show [pop ["a.cpp"]] = ["a.cpp"]
  rw [hm]

/-- C7 witness: the amended claim with the first-element oracle. -/
theorem C7_amended_witness :
    parsedLocations (DoxygenReader.parse_class_file
      (rootTwoLocs "a.cpp" "a.cpp") popFirst) = ["a.cpp"]
    ∧ parsedLocations (DoxygenReader.parse_class_file
        (rootTwoLocs "a.cpp" "b.cpp") popFirst) = [popFirst ["a.cpp", "b.cpp"]] :=
  ⟨(C7_amended popFirst popFirst_mem).1, (C7_amended popFirst popFirst_mem).2.1⟩

/-- C8 counterexample: with caller-supplied prefix `xy`, the fixture class is
located at `abc` (warned, unmodified — that part is as claimed), but its
method is located at `xyfoo`, which starts with the prefix; the claim says it
must become `foo`, yet the code never recurses into a class whose own
location failed the prefix test: the method location stays `xyfoo` and gets
no warning either. -/
theorem C8_counterexample :
    (( CppNamespace.shorten_location_prefix ns8 "xy").1.classes.map
        (fun kc => kc.2.methods.map CppFunction.location)) = [["xyfoo"]]
    ∧ strStartsWith "xyfoo" "xy" = true
    ∧ ( CppNamespace.shorten_location_prefix ns8 "xy").2
      = ["Location of class ::genesis::D does not start with prefix xy"] := by
  decide

/-- Strip one location if it starts with the prefix (the claimed rewrite). -/
def stripIf (pre : String) (f : CppFunction) : CppFunction :=
  if strStartsWith f.location pre then
    { f with location := strDrop f.location pre.length }
  else f

def funcWarnMsg (pre : String) (f : CppFunction) : String :=
  "Location of function " ++ f.name ++ " does not start with prefix " ++ pre

/-- The bucket strip is the pointwise conditional rewrite, and it warns for
exactly the functions whose location does not start with the prefix. -/
theorem shortenFuncList_eq (pre : String) (l : List CppFunction) :
    (shortenFuncList pre l).1 = l.map (stripIf pre)
    ∧ (shortenFuncList pre l).2
      = (l.filter (fun f => ! strStartsWith f.location pre)).map (funcWarnMsg pre) := by
  induction l with
  | nil => exact ⟨rfl, rfl⟩
  | cons hd tl ih =>
    by_cases h : strStartsWith hd.location pre
    · refine ⟨?_, ?_⟩ <;>
        simp [shortenFuncList, h, stripIf, ih.1, ih.2, funcWarnMsg]
    · refine ⟨?_, ?_⟩ <;>
        simp [shortenFuncList, h, stripIf, ih.1, ih.2, funcWarnMsg]

/-- The class dict pass of `shorten_location_prefix` is the pointwise
conditional rewrite: a matching class is stripped and its functions are
stripped in turn; a non-matching class (and everything in it) is untouched
and warned about once, by its dict key. -/
theorem nsShortenClasses_eq (pre : String) (cls : List (String × CppClass)) :
    (nsShortenClasses pre cls).1 = cls.map (fun kc =>
      if strStartsWith kc.2.location pre then
        (kc.1, ( CppClass.shorten_location_prefix
          { kc.2 with location := strDrop kc.2.location pre.length } pre).1)
      else kc)
    ∧ (nsShortenClasses pre cls).2 = cls.flatMap (fun kc =>
      if strStartsWith kc.2.location pre then
        ( CppClass.shorten_location_prefix
          { kc.2 with location := strDrop kc.2.location pre.length } pre).2
      else ["Location of class " ++ kc.1 ++ " does not start with prefix " ++ pre]) := by
  induction cls with
  | nil => exact ⟨rfl, rfl⟩
  | cons hd tl ih =>
    by_cases h : strStartsWith hd.2.location pre
    · refine ⟨?_, ?_⟩ <;>
        simp [nsShortenClasses, h, ih.1, ih.2]
    · refine ⟨?_, ?_⟩ <;>
        simp [nsShortenClasses, h, ih.1, ih.2]

/-- The free-function dict pass is the pointwise conditional rewrite, warning
by dict key for a non-matching location. -/
theorem nsShortenFunctions_eq (pre : String) (fns : List (String × CppFunction)) :
    (nsShortenFunctions pre fns).1 = fns.map (fun kf =>
      if strStartsWith kf.2.location pre then
        (kf.1, { kf.2 with location := strDrop kf.2.location pre.length })
      else kf)
    ∧ (nsShortenFunctions pre fns).2 = fns.flatMap (fun kf =>
      if strStartsWith kf.2.location pre then []
      else ["Location of function " ++ kf.1 ++ " does not start with prefix " ++ pre]) := by
  induction fns with
  | nil => exact ⟨rfl, rfl⟩
  | cons hd tl ih =>
    by_cases h : strStartsWith hd.2.location pre
    · refine ⟨?_, ?_⟩ <;>
        simp [nsShortenFunctions, h, ih.1, ih.2]
    · refine ⟨?_, ?_⟩ <;>
        simp [nsShortenFunctions, h, ih.1, ih.2]

/-- C8 amended: with a non-empty prefix (caller-supplied, or the computed
character-wise common prefix when the caller passes `""`):
every function location in a class whose own location starts with the prefix
is stripped when it starts with the prefix and left unmodified with a warning
otherwise; at the namespace level each class and each free function is
stripped or warned the same way — but the member functions of a class whose
own location does NOT start with the prefix are skipped entirely: neither
stripped (even if their locations start with the prefix) nor warned. -/
theorem C8_amended (pre : String) (hpre : pre ≠ "") (c : CppClass)
    (nm b d : String) (cls : List (String × CppClass))
    (fns : List (String × CppFunction)) :
    ( CppClass.shorten_location_prefix c pre).1
      = { c with ctors := c.ctors.map (stripIf pre)
                 dtors := c.dtors.map (stripIf pre)
                 methods := c.methods.map (stripIf pre)
                 operators := c.operators.map (stripIf pre) }
    ∧ ( CppClass.shorten_location_prefix c pre).2
      = ((c.ctors.filter (fun f => ! strStartsWith f.location pre)).map (funcWarnMsg pre))
        ++ ((c.dtors.filter (fun f => ! strStartsWith f.location pre)).map (funcWarnMsg pre))
        ++ ((c.methods.filter (fun f => ! strStartsWith f.location pre)).map (funcWarnMsg pre))
        ++ ((c.operators.filter (fun f => ! strStartsWith f.location pre)).map (funcWarnMsg pre))
    ∧ ( CppNamespace.shorten_location_prefix (.mk nm [] cls fns b d) pre).1
      = .mk nm []
          (cls.map (fun kc =>
            if strStartsWith kc.2.location pre then
              (kc.1, ( CppClass.shorten_location_prefix
                { kc.2 with location := strDrop kc.2.location pre.length } pre).1)
            else kc))
          (fns.map (fun kf =>
            if strStartsWith kf.2.location pre then
              (kf.1, { kf.2 with location := strDrop kf.2.location pre.length })
            else kf)) b d := by
  have hcls : ( CppClass.shorten_location_prefix c pre)
      = ({ c with ctors := (shortenFuncList pre c.ctors).1
                  dtors := (shortenFuncList pre c.dtors).1
                  methods := (shortenFuncList pre c.methods).1
                  operators := (shortenFuncList pre c.operators).1 },
          (shortenFuncList pre c.ctors).2 ++ (shortenFuncList pre c.dtors).2
          ++ (shortenFuncList pre c.methods).2 ++ (shortenFuncList pre c.operators).2) := by
    unfold CppClass.shorten_location_prefix
    rw [if_neg hpre]
  refine ⟨?_, ?_, ?_⟩
  · rw [hcls]
    simp only [(shortenFuncList_eq pre c.ctors).1, (shortenFuncList_eq pre c.dtors).1,
      (shortenFuncList_eq pre c.methods).1, (shortenFuncList_eq pre c.operators).1]
  · rw [hcls]
    simp only [(shortenFuncList_eq pre c.ctors).2, (shortenFuncList_eq pre c.dtors).2,
      (shortenFuncList_eq pre c.methods).2, (shortenFuncList_eq pre c.operators).2,
      List.append_assoc]
  · unfold CppNamespace.shorten_location_prefix
    rw [if_neg hpre]
    simp only [(nsShortenClasses_eq pre cls).1, (nsShortenFunctions_eq pre fns).1]
    rfl

/-- C8 witness: the amended claim at the counterexample fixture. -/
theorem C8_amended_witness :
    ( CppClass.shorten_location_prefix fixtureClass8 "xy").1
      = { fixtureClass8 with
            ctors := fixtureClass8.ctors.map (stripIf "xy")
            dtors := fixtureClass8.dtors.map (stripIf "xy")
            methods := fixtureClass8.methods.map (stripIf "xy")
            operators := fixtureClass8.operators.map (stripIf "xy") }
    ∧ ( CppNamespace.shorten_location_prefix (.mk "" [] [("::genesis::D", fixtureClass8)] [] "" "") "xy").1
      = .mk "" []
          ([("::genesis::D", fixtureClass8)].map (fun kc =>
            if strStartsWith kc.2.location "xy" then
              (kc.1, ( CppClass.shorten_location_prefix
                { kc.2 with location := strDrop kc.2.location "xy".length } "xy").1)
            else kc))
          ([].map (fun kf : String × CppFunction =>
            if strStartsWith kf.2.location "xy" then
              (kf.1, { kf.2 with location := strDrop kf.2.location "xy".length })
            else kf)) "" "" :=
  ⟨(C8_amended "xy" (by decide) fixtureClass8 "" "" "" [] []).1,
   (C8_amended "xy" (by decide) fixtureClass8 "" "" ""
     [("::genesis::D", fixtureClass8)] []).2.2⟩

/-- The (file name, content) pair that `write_export_files` writes for one
collected export file: a function of the collected data alone. -/
def exportWriteOf (directory : String) (kv : String × ExportFile) : String × String :=
  let filename := if strStartsWith kv.1 "." ∨ strStartsWith kv.1 "/" then
      "unnamed" ++ kv.1
    else kv.1
  ( path_join directory filename, BoostPythonWriter.export_file_text filename kv.2)

/-- The writes accumulated by the export loop are the per-file pairs in dict
order, regardless of the starting disk and warning state. -/
theorem write_fold_writes (directory : String) (efs : PyDict ExportFile) :
    ∀ acc : (String → Option String) × List (String × String) × List String,
      (efs.foldl (BoostPythonWriter.write_one_export directory) acc).2.1
        = acc.2.1 ++ efs.map (exportWriteOf directory) := by
  induction efs with
  | nil => intro acc; simp
  | cons hd tl ih =>
    intro acc
    rw [List.foldl_cons, ih, List.map_cons]
    have hstep : (BoostPythonWriter.write_one_export directory acc hd).2.1
        = acc.2.1 ++ [exportWriteOf directory hd] := rfl
    rw [hstep]
    simp

/-- C1 amended: with the free-function object order fixed, emission is a pure
function of the tree — in particular the bytes written do not depend on
whatever files already exist in the output directory (pre-existing files only
change the printed warnings), so re-running the emitter or the pipeline on
the same tree writes byte-identical text for every export file; the
documentation table is additionally a function of the object-order oracle
(see the counterexample), which is fixed within one process. -/
theorem C1_amended :
    (∀ (efs : PyDict ExportFile) (directory : String)
        (d1 d2 : String → Option String),
      (BoostPythonWriter.write_export_files efs directory d1).1
        = (BoostPythonWriter.write_export_files efs directory d2).1)
    ∧ (∀ (ns : CppNamespace) (directory module_name : String)
        (cmp : CppFunction → CppFunction → Bool)
        (d1 d2 : String → Option String),
      (BoostPythonWriter.generate_files ns directory module_name cmp d1).1
        = (BoostPythonWriter.generate_files ns directory module_name cmp d2).1) := by
  have hw : ∀ (efs : PyDict ExportFile) (directory : String)
      (d1 d2 : String → Option String),
      (BoostPythonWriter.write_export_files efs directory d1).1
        = (BoostPythonWriter.write_export_files efs directory d2).1 := by
    intro efs directory d1 d2
    unfold BoostPythonWriter.write_export_files
    rw [write_fold_writes directory efs ((d1, [], []) : (String → Option String) × List (String × String) × List String),
      write_fold_writes directory efs ((d2, [], []) : (String → Option String) × List (String × String) × List String)]
  refine ⟨hw, ?_⟩
  intro ns directory module_name cmp d1 d2
  unfold BoostPythonWriter.generate_files
  simp only []
  rw [hw _ directory d1 d2]

set_option maxRecDepth 40000 in
set_option maxHeartbeats 4000000 in
/-- C1 counterexample: the docstring generator runs `sorted` over the list of
free-function OBJECTS; Python 2 orders same-class instances by object
address, so the order is not a function of the tree's values.  Two admissible
object orders over the same two-function tree produce different bytes for
`docstrings.cpp`: emission is not a pure function of the tree, and a fresh
process run (new addresses) is not guaranteed byte-identical for the
documentation table. -/
theorem C1_counterexample :
    (BoostPythonWriter.generate_docstring_file nsTwoFns "./src" cmpAsc).1.2
      ≠ (BoostPythonWriter.generate_docstring_file nsTwoFns "./src" cmpDesc).1.2 := by
  decide
